import Mathlib

/-!
Verification development for the Phase2 banking front end.

The definitions below are a shallow embedding of `Phase2.py`: the session
state machine (`SessionState`), the in-memory account ledger
(`BankAccountsFile`, modelled as an insertion-ordered association list),
the daily transaction file writer, the buffered request reader with
single-slot pushback, and the `FrontEndController` transaction handlers.

Python floats carrying currency amounts are modelled as rationals (`ℚ`);
the transaction grammar only produces plain decimal literals, which both
representations compare identically on.  The two ledger operations that can
raise `KeyError` in Python (`getBalance`, `setBalance`) are modelled as
`Option`-returning lookups, and the transaction handlers run in
`Except Unit`, with `.error ()` marking exactly a would-be `KeyError`.
-/

/- Batteries marks the `Rat` arithmetic operations `@[irreducible]`, which
blocks `decide`/`rfl` evaluation of concrete runs; restore the default
transparency so the kernel can evaluate them. -/
set_option allowUnsafeReducibility true in
attribute [semireducible] Rat.add Rat.sub Rat.mul Rat.div Rat.inv Rat.neg

namespace Phase2

/-- Constants from the top of `Phase2.py`. -/
def WITHDRAWAL_LIMIT_STANDARD : ℚ := 500
def TRANSFER_LIMIT_STANDARD : ℚ := 1000
def PAYBILL_LIMIT_STANDARD : ℚ := 2000
def MAX_ACCOUNT_NAME_LEN : Nat := 20
def MAX_BALANCE : ℚ := 99999

def VALID_BILL_COMPANIES : List String := ["EC", "CQ", "FI"]

/-- Python `str.lower()` for the ASCII data of this protocol (list-based so
that kernel reduction can evaluate it, unlike `String.toLower`). -/
def strLower (s : String) : String :=
  String.mk (s.data.map Char.toLower)

/-- Python `str.strip()` (list-based so that kernel reduction can evaluate
it, unlike `String.trim`). -/
def strTrim (s : String) : String :=
  String.mk ((s.data.dropWhile Char.isWhitespace).reverse.dropWhile Char.isWhitespace).reverse

/-- One ledger entry: the dict value `{"name": .., "status": .., "balance": ..}`. -/
structure Account where
  name : String
  status : String
  balance : ℚ
deriving DecidableEq

/-- `SessionState.__init__` / mutable fields of the session singleton. -/
structure SessionState where
  logged_in : Bool
  admin_mode : Bool
  account_holder_name : String
  total_withdrawn : ℚ
  total_transferred : ℚ
  total_paybilled : ℚ
  ever_logged_in : Bool
deriving DecidableEq

/-- `SessionState.startSession`. -/
def startSession (s : SessionState) (sessionMode accountHolderName : String) : SessionState :=
  { s with
    logged_in := true
    admin_mode := strLower sessionMode == "admin"
    account_holder_name := accountHolderName
    total_withdrawn := 0
    total_transferred := 0
    total_paybilled := 0
    ever_logged_in := true }

/-- `SessionState.endSession` (note: `ever_logged_in` is sticky). -/
def endSession (s : SessionState) : SessionState :=
  { s with
    logged_in := false
    admin_mode := false
    account_holder_name := ""
    total_withdrawn := 0
    total_transferred := 0
    total_paybilled := 0 }

/-! ## The account ledger (`BankAccountsFile.accounts`, a Python dict)

A Python dict is insertion ordered with unique keys; we model it as an
association list where insertion updates in place when the key is present
and appends otherwise. -/

def Ledger := List (String × Account)

instance : DecidableEq Ledger := by unfold Ledger; infer_instance

/-- Dict lookup `accounts.get(accNum)`. -/
def dictGet : Ledger → String → Option Account
  | [], _ => none
  | (k, v) :: t, k' => if k = k' then some v else dictGet t k'

/-- Dict assignment `accounts[accNum] = value` (update in place or append). -/
def dictSet : Ledger → String → Account → Ledger
  | [], k, v => [(k, v)]
  | (k', v') :: t, k, v => if k' = k then (k', v) :: t else (k', v') :: dictSet t k v

/-- Dict deletion `del accounts[accNum]` guarded by a membership test
(`BankAccountsFile.deleteAccount` is a no-op on a missing key). -/
def dictDel : Ledger → String → Ledger
  | [], _ => []
  | (k', v) :: t, k => if k' = k then t else (k', v) :: dictDel t k

/-- `BankAccountsFile.doesAccountExist`. -/
def doesAccountExist (a : Ledger) (accNum : String) : Bool :=
  (dictGet a accNum).isSome

/-- `BankAccountsFile.isAccountDisabled`: `.get(accNum, {}).get("status") == "D"`. -/
def isAccountDisabled (a : Ledger) (accNum : String) : Bool :=
  (dictGet a accNum).any fun v => v.status == "D"

/-- `BankAccountsFile.isAccountOwnedBy`: `.get(accNum, {}).get("name") == name`. -/
def isAccountOwnedBy (a : Ledger) (accNum name : String) : Bool :=
  (dictGet a accNum).any fun v => v.name == name

/-- `BankAccountsFile.getBalance`; `none` is Python's `KeyError`. -/
def getBalance? (a : Ledger) (accNum : String) : Option ℚ :=
  (dictGet a accNum).map (·.balance)

/-- `BankAccountsFile.setBalance`; `none` is Python's `KeyError`. -/
def setBalance? : Ledger → String → ℚ → Option Ledger
  | [], _, _ => none
  | (k', v) :: t, k, b =>
      if k' = k then some ((k', { v with balance := b }) :: t)
      else (setBalance? t k b).map ((k', v) :: ·)

/-- `BankAccountsFile.nameExists`. -/
def nameExists (a : Ledger) (name : String) : Bool :=
  a.any fun kv => kv.2.name == name

/-- `BankAccountsFile.createAccount`. -/
def createAccount (a : Ledger) (accNum name : String) (balance : ℚ) : Ledger :=
  dictSet a accNum { name := name, status := "A", balance := balance }

/-- `BankAccountsFile.deleteAccount`. -/
def deleteAccount (a : Ledger) (accNum : String) : Ledger :=
  dictDel a accNum

/-- `BankAccountsFile.disableAccount`: sets status to `"D"` if present. -/
def disableAccount : Ledger → String → Ledger
  | [], _ => []
  | (k', v) :: t, k =>
      if k' = k then (k', { v with status := "D" }) :: t
      else (k', v) :: disableAccount t k

/-- Python `str(n).zfill(5)`. -/
def zfill5 (n : Nat) : String :=
  let s := toString n
  String.mk (List.replicate (5 - s.length) '0') ++ s

/-- The scan loop of `findNextAvailableAccountNumber`, driven by explicit
fuel; starting the fuel at `89998` makes it range over `10001..99998`,
exactly Python's `range(10001, 99999)`. -/
def findNextFrom (a : Ledger) : Nat → Nat → Option String
  | 0, _ => none
  | fuel + 1, n =>
      if (dictGet a (zfill5 n)).isSome then findNextFrom a fuel (n + 1)
      else some (zfill5 n)

/-- `BankAccountsFile.findNextAvailableAccountNumber`. -/
def findNextAvailableAccountNumber (a : Ledger) : Option String :=
  findNextFrom a 89998 10001

/-! ## The daily transaction file writer -/

def padRightTo (w : Nat) (s : String) : String :=
  s ++ String.mk (List.replicate (w - s.length) ' ')

def padLeftTo (w : Nat) (s : String) : String :=
  String.mk (List.replicate (w - s.length) ' ') ++ s

def zeroPadTo (w : Nat) (s : String) : String :=
  String.mk (List.replicate (w - s.length) '0') ++ s

/-- Python's `f"{amount:08.2f}"` for the non-negative amounts the writer is
given (rounding ties upward rather than to even; no call site produces a
tie at a half-cent). -/
def fmtAmount08p2 (q : ℚ) : String :=
  let cents := (q * 100 + 1 / 2).floor.toNat
  zeroPadTo 8 (toString (cents / 100) ++ "." ++ zeroPadTo 2 (toString (cents % 100)))

/-- `DailyTransactionFileWriter.formatTransactionRecordLine`. -/
def formatTransactionRecordLine (code name accNum : String) (amount : ℚ)
    (misc : String := "  ") : String :=
  code ++ " " ++ padRightTo 20 name ++ " " ++ padLeftTo 5 accNum ++ " " ++
    fmtAmount08p2 amount ++ " " ++ misc

/-- The record appended by `addEndOfSessionRecord`. -/
def endOfSessionRecordLine : String :=
  formatTransactionRecordLine "00" "" "00000" 0

/-! ## Controller state and the buffered reader -/

/-- The mutable state reachable from a `FrontEndController`: the session
singleton, the ledger, the writer's pending `records`, the transient
created/deleted sets, the lookahead `_buffer` and the remaining input
stream.  `flushes` records each `writeToFile` call (the whole `records`
list written at that moment). -/
structure Ctrl where
  session : SessionState
  accounts : Ledger
  records : List String
  flushes : List (List String)
  created : List String
  deleted : List String
  buffer : List String
  stream : List String
deriving DecidableEq

/-- Python `line.rstrip("\n")`. -/
def rstripNewline (s : String) : String :=
  String.mk (s.data.reverse.dropWhile (· = '\n')).reverse

/-- `FrontEndController._next_line`: pop the pushback buffer first, else
pull (and newline-strip) from the stream; `none` is the EOF sentinel. -/
def nextLine (c : Ctrl) : Option String × Ctrl :=
  match c.buffer with
  | l :: rest => (some l, { c with buffer := rest })
  | [] =>
    match c.stream with
    | l :: rest => (some (rstripNewline l), { c with stream := rest })
    | [] => (none, c)

/-- `FrontEndController._push_back` (skips the EOF sentinel). -/
def pushBack (l : Option String) (c : Ctrl) : Ctrl :=
  match l with
  | some s => { c with buffer := s :: c.buffer }
  | none => c

/-- `FrontEndController._consume_n_lines`. -/
def consumeN : Nat → Ctrl → Ctrl
  | 0, c => c
  | n + 1, c => consumeN n (nextLine c).2

/-- The fixed arity table inside
`_consume_params_for_code_when_not_logged_in` (argument already
lower-cased by the caller of the table). -/
def consumeArity (code : String) : Option Nat :=
  if code = "withdrawal" then some 3
  else if code = "deposit" then some 3
  else if code = "transfer" then some 4
  else if code = "paybill" then some 4
  else if code = "create" then some 2
  else if code = "delete" then some 2
  else if code = "disable" then some 2
  else if code = "changeplan" then some 2
  else none

/-- `FrontEndController._consume_params_for_code_when_not_logged_in`. -/
def consumeParamsWhenNotLoggedIn (code : String) (c : Ctrl) : Ctrl :=
  match consumeArity (strLower code) with
  | some n => consumeN n c
  | none => c

/-- Python's `float(s)` on an already-stripped string, for the plain
decimal literals of the transaction grammar: optional sign, then digits
with at most one decimal point and at least one digit overall. -/
def parseDecimal (s : String) : Option ℚ :=
  let signAndRest : ℚ × List Char :=
    match s.data with
    | '-' :: t => (-1, t)
    | '+' :: t => (1, t)
    | t => (1, t)
  let sign := signAndRest.1
  let cs := signAndRest.2
  let intPart := cs.takeWhile (· ≠ '.')
  let rest := cs.dropWhile (· ≠ '.')
  let digitsToNat (l : List Char) : Nat := l.foldl (fun n ch => 10 * n + (ch.toNat - 48)) 0
  match rest with
  | [] =>
      if intPart ≠ [] ∧ intPart.all Char.isDigit then
        some (sign * (digitsToNat intPart : ℚ))
      else none
  | _ :: frac =>
      if (intPart ++ frac) ≠ [] ∧ intPart.all Char.isDigit ∧ frac.all Char.isDigit then
        some (sign * ((digitsToNat intPart : ℚ) + (digitsToNat frac : ℚ) / 10 ^ frac.length))
      else none

/-! ## Transaction handlers

Each handler mirrors one branch of `FrontEndController.handleOtherTransactions`
(or `handleLogin`/`handleLogout`).  The reads happen first, in source order;
the validation chain then inspects `c.accounts`, `c.session`, `c.created`,
`c.deleted` — all of which the reader leaves untouched — and the final state
is the read-consumed state with the mutation applied. -/

/-- One `(self._next_line(lines) or "").strip()` read. -/
def readTrim (c : Ctrl) : String × Ctrl :=
  ((strTrim ((nextLine c).1.getD "")), (nextLine c).2)

/-- The `if self.session.isAdminMode(): _ = self._next_line(lines)` prelude
of the four money-movement handlers. -/
def adminSkip (c : Ctrl) : Ctrl :=
  if c.session.admin_mode then (nextLine c).2 else c

/-- The `withdrawal` branch of `handleOtherTransactions` (session known to
be logged in).  The first projection of the `readTrim` chain is the
stripped `acc_num`, the second read is the stripped `amount_str`, and the
final `.2` is the reader state after both reads. -/
def withdrawalTx (c : Ctrl) : Except Unit (Option String × Ctrl) :=
  if (readTrim (adminSkip c)).1 = "" ∨ (readTrim (readTrim (adminSkip c)).2).1 = "" then .ok (some "ERROR: Malformed input.", (readTrim (readTrim (adminSkip c)).2).2)
  else if (readTrim (adminSkip c)).1.length ≠ 5 ∨ ¬ (readTrim (adminSkip c)).1.data.all Char.isDigit then
    .ok (some "ERROR: Invalid account number.", (readTrim (readTrim (adminSkip c)).2).2)
  else if (readTrim (adminSkip c)).1 ∈ c.deleted then .ok (some "ERROR: Account no longer exists.", (readTrim (readTrim (adminSkip c)).2).2)
  else if (readTrim (adminSkip c)).1 ∈ c.created then
    .ok (some "ERROR: Account unavailable this session.", (readTrim (readTrim (adminSkip c)).2).2)
  else if ¬ doesAccountExist c.accounts (readTrim (adminSkip c)).1 then
    .ok (some "ERROR: Account does not exist.", (readTrim (readTrim (adminSkip c)).2).2)
  else if isAccountDisabled c.accounts (readTrim (adminSkip c)).1 then
    .ok (some "ERROR: Account is disabled.", (readTrim (readTrim (adminSkip c)).2).2)
  else if ¬ c.session.admin_mode ∧
      ¬ isAccountOwnedBy c.accounts (readTrim (adminSkip c)).1 c.session.account_holder_name then
    .ok (some "ERROR: Account not owned by user.", (readTrim (readTrim (adminSkip c)).2).2)
  else match parseDecimal (readTrim (readTrim (adminSkip c)).2).1 with
  | none => .ok (some "ERROR: Invalid amount format.", (readTrim (readTrim (adminSkip c)).2).2)
  | some amount =>
    if amount < 0 then .ok (some "ERROR: Negative amounts not allowed.", (readTrim (readTrim (adminSkip c)).2).2)
    else match getBalance? c.accounts (readTrim (adminSkip c)).1 with
    | none => .error ()
    | some bal =>
      if bal < amount then .ok (some "ERROR: Insufficient funds.", (readTrim (readTrim (adminSkip c)).2).2)
      else if ¬ c.session.admin_mode ∧ WITHDRAWAL_LIMIT_STANDARD < amount then
        .ok (some "ERROR: Withdrawal exceeds session limit.", (readTrim (readTrim (adminSkip c)).2).2)
      else match setBalance? c.accounts (readTrim (adminSkip c)).1 (bal - amount) with
      | none => .error ()
      | some accounts' =>
        .ok (some "Withdrawal accepted.",
          { (readTrim (readTrim (adminSkip c)).2).2 with
            accounts := accounts'
            records := (readTrim (readTrim (adminSkip c)).2).2.records ++
              [formatTransactionRecordLine "01" c.session.account_holder_name
                (readTrim (adminSkip c)).1 amount] })

/-- The `deposit` branch of `handleOtherTransactions`. -/
def depositTx (c : Ctrl) : Except Unit (Option String × Ctrl) :=
  if (readTrim (adminSkip c)).1 = "" ∨ (readTrim (readTrim (adminSkip c)).2).1 = "" then .ok (some "ERROR: Malformed input.", (readTrim (readTrim (adminSkip c)).2).2)
  else if (readTrim (adminSkip c)).1 ∈ c.deleted then .ok (some "ERROR: Account no longer exists.", (readTrim (readTrim (adminSkip c)).2).2)
  else if (readTrim (adminSkip c)).1 ∈ c.created then
    .ok (some "ERROR: Account unavailable this session.", (readTrim (readTrim (adminSkip c)).2).2)
  else if ¬ doesAccountExist c.accounts (readTrim (adminSkip c)).1 then
    .ok (some "ERROR: Account does not exist.", (readTrim (readTrim (adminSkip c)).2).2)
  else if isAccountDisabled c.accounts (readTrim (adminSkip c)).1 then
    .ok (some "ERROR: Account is disabled.", (readTrim (readTrim (adminSkip c)).2).2)
  else if ¬ c.session.admin_mode ∧
      ¬ isAccountOwnedBy c.accounts (readTrim (adminSkip c)).1 c.session.account_holder_name then
    .ok (some "ERROR: Account not owned by user.", (readTrim (readTrim (adminSkip c)).2).2)
  else match parseDecimal (readTrim (readTrim (adminSkip c)).2).1 with
  | none => .ok (some "ERROR: Invalid amount format.", (readTrim (readTrim (adminSkip c)).2).2)
  | some amount =>
    if amount < 0 then .ok (some "ERROR: Negative amounts not allowed.", (readTrim (readTrim (adminSkip c)).2).2)
    else match getBalance? c.accounts (readTrim (adminSkip c)).1 with
    | none => .error ()
    | some bal =>
      match setBalance? c.accounts (readTrim (adminSkip c)).1 (bal + amount) with
      | none => .error ()
      | some accounts' => .ok (some "Deposit accepted.", { (readTrim (readTrim (adminSkip c)).2).2 with accounts := accounts' })

/-- The `transfer` branch of `handleOtherTransactions`.  The three reads
are `from_acc`, `to_acc`, `amount_str`. -/
def transferTx (c : Ctrl) : Except Unit (Option String × Ctrl) :=
  if (readTrim (adminSkip c)).1 = "" ∨ (readTrim (readTrim (adminSkip c)).2).1 = "" ∨ (readTrim (readTrim (readTrim (adminSkip c)).2).2).1 = "" then .ok (some "ERROR: Malformed input.", (readTrim (readTrim (readTrim (adminSkip c)).2).2).2)
  else if (readTrim (adminSkip c)).1 ∈ c.deleted ∨ (readTrim (readTrim (adminSkip c)).2).1 ∈ c.deleted then
    .ok (some "ERROR: Account no longer exists.", (readTrim (readTrim (readTrim (adminSkip c)).2).2).2)
  else if (readTrim (adminSkip c)).1 ∈ c.created ∨ (readTrim (readTrim (adminSkip c)).2).1 ∈ c.created then
    .ok (some "ERROR: Account unavailable this session.", (readTrim (readTrim (readTrim (adminSkip c)).2).2).2)
  else if ¬ doesAccountExist c.accounts (readTrim (adminSkip c)).1 then
    .ok (some "ERROR: Source account does not exist.", (readTrim (readTrim (readTrim (adminSkip c)).2).2).2)
  else if ¬ doesAccountExist c.accounts (readTrim (readTrim (adminSkip c)).2).1 then
    .ok (some "ERROR: Destination account does not exist.", (readTrim (readTrim (readTrim (adminSkip c)).2).2).2)
  else if isAccountDisabled c.accounts (readTrim (adminSkip c)).1 ∨ isAccountDisabled c.accounts (readTrim (readTrim (adminSkip c)).2).1 then
    .ok (some "ERROR: Account is disabled.", (readTrim (readTrim (readTrim (adminSkip c)).2).2).2)
  else if ¬ c.session.admin_mode ∧
      ¬ isAccountOwnedBy c.accounts (readTrim (adminSkip c)).1 c.session.account_holder_name then
    .ok (some "ERROR: Source account not owned.", (readTrim (readTrim (readTrim (adminSkip c)).2).2).2)
  else match parseDecimal (readTrim (readTrim (readTrim (adminSkip c)).2).2).1 with
  | none => .ok (some "ERROR: Invalid amount format.", (readTrim (readTrim (readTrim (adminSkip c)).2).2).2)
  | some amount =>
    if amount < 0 then .ok (some "ERROR: Negative amounts not allowed.", (readTrim (readTrim (readTrim (adminSkip c)).2).2).2)
    else match getBalance? c.accounts (readTrim (adminSkip c)).1 with
    | none => .error ()
    | some fromBal =>
      if fromBal < amount then .ok (some "ERROR: Insufficient funds.", (readTrim (readTrim (readTrim (adminSkip c)).2).2).2)
      else if ¬ c.session.admin_mode ∧ TRANSFER_LIMIT_STANDARD < amount then
        .ok (some "ERROR: Transfer exceeds session limit.", (readTrim (readTrim (readTrim (adminSkip c)).2).2).2)
      else match setBalance? c.accounts (readTrim (adminSkip c)).1 (fromBal - amount) with
      | none => .error ()
      | some accounts1 =>
        match getBalance? accounts1 (readTrim (readTrim (adminSkip c)).2).1 with
        | none => .error ()
        | some toBal =>
          match setBalance? accounts1 (readTrim (readTrim (adminSkip c)).2).1 (toBal + amount) with
          | none => .error ()
          | some accounts2 => .ok (some "Transfer accepted.", { (readTrim (readTrim (readTrim (adminSkip c)).2).2).2 with accounts := accounts2 })

/-- The `paybill` branch of `handleOtherTransactions`.  The three reads
are `acc_num`, `company`, `amount_str`. -/
def paybillTx (c : Ctrl) : Except Unit (Option String × Ctrl) :=
  if (readTrim (adminSkip c)).1 = "" ∨ (readTrim (readTrim (adminSkip c)).2).1 = "" ∨ (readTrim (readTrim (readTrim (adminSkip c)).2).2).1 = "" then .ok (some "ERROR: Malformed input.", (readTrim (readTrim (readTrim (adminSkip c)).2).2).2)
  else if (readTrim (adminSkip c)).1 ∈ c.deleted then .ok (some "ERROR: Account no longer exists.", (readTrim (readTrim (readTrim (adminSkip c)).2).2).2)
  else if (readTrim (adminSkip c)).1 ∈ c.created then
    .ok (some "ERROR: Account unavailable this session.", (readTrim (readTrim (readTrim (adminSkip c)).2).2).2)
  else if ¬ doesAccountExist c.accounts (readTrim (adminSkip c)).1 then
    .ok (some "ERROR: Invalid account number.", (readTrim (readTrim (readTrim (adminSkip c)).2).2).2)
  else if isAccountDisabled c.accounts (readTrim (adminSkip c)).1 then
    .ok (some "ERROR: Account is disabled.", (readTrim (readTrim (readTrim (adminSkip c)).2).2).2)
  else if ¬ c.session.admin_mode ∧
      ¬ isAccountOwnedBy c.accounts (readTrim (adminSkip c)).1 c.session.account_holder_name then
    .ok (some "ERROR: Account not owned by user.", (readTrim (readTrim (readTrim (adminSkip c)).2).2).2)
  else if (readTrim (readTrim (adminSkip c)).2).1 ∉ VALID_BILL_COMPANIES then .ok (some "ERROR: Invalid bill company.", (readTrim (readTrim (readTrim (adminSkip c)).2).2).2)
  else match parseDecimal (readTrim (readTrim (readTrim (adminSkip c)).2).2).1 with
  | none => .ok (some "ERROR: Invalid amount format.", (readTrim (readTrim (readTrim (adminSkip c)).2).2).2)
  | some amount =>
    if amount < 0 then .ok (some "ERROR: Negative amounts not allowed.", (readTrim (readTrim (readTrim (adminSkip c)).2).2).2)
    else if ¬ c.session.admin_mode ∧ PAYBILL_LIMIT_STANDARD < amount then
      .ok (some "ERROR: Paybill exceeds session limit.", (readTrim (readTrim (readTrim (adminSkip c)).2).2).2)
    else match getBalance? c.accounts (readTrim (adminSkip c)).1 with
    | none => .error ()
    | some bal =>
      if bal < amount then .ok (some "ERROR: Insufficient funds.", (readTrim (readTrim (readTrim (adminSkip c)).2).2).2)
      else match setBalance? c.accounts (readTrim (adminSkip c)).1 (bal - amount) with
      | none => .error ()
      | some accounts' => .ok (some "Bill payment accepted.", { (readTrim (readTrim (readTrim (adminSkip c)).2).2).2 with accounts := accounts' })

/-- The `create` branch of `handleOtherTransactions`.  The two reads are
`name` and `bal_str`. -/
def createTx (c : Ctrl) : Except Unit (Option String × Ctrl) :=
  if ¬ c.session.admin_mode then
    .ok (some "ERROR: Privileged transaction not permitted.", (readTrim (readTrim c).2).2)
  else if (readTrim c).1 = "" ∨ (readTrim (readTrim c).2).1 = "" then .ok (some "ERROR: Malformed input.", (readTrim (readTrim c).2).2)
  else if MAX_ACCOUNT_NAME_LEN < (readTrim c).1.length then
    .ok (some "ERROR: Account holder name too long.", (readTrim (readTrim c).2).2)
  else match parseDecimal (readTrim (readTrim c).2).1 with
  | none => .ok (some "ERROR: Invalid amount format.", (readTrim (readTrim c).2).2)
  | some balance =>
    if MAX_BALANCE < balance then .ok (some "ERROR: Initial balance exceeds maximum.", (readTrim (readTrim c).2).2)
    else if nameExists c.accounts (readTrim c).1 then .ok (some "ERROR: Duplicate account number.", (readTrim (readTrim c).2).2)
    else match findNextAvailableAccountNumber c.accounts with
    | none => .ok (some "ERROR: Cannot create account.", (readTrim (readTrim c).2).2)
    | some new_num =>
      .ok (some "Account creation recorded.",
        { (readTrim (readTrim c).2).2 with
          accounts := createAccount c.accounts new_num (readTrim c).1 balance
          created := (readTrim (readTrim c).2).2.created.insert new_num })

/-- The `delete` branch of `handleOtherTransactions`.  The two reads are
`name` and `acc_num`. -/
def deleteTx (c : Ctrl) : Except Unit (Option String × Ctrl) :=
  if ¬ c.session.admin_mode then
    .ok (some "ERROR: Privileged transaction not permitted.", (readTrim (readTrim c).2).2)
  else if (readTrim c).1 = "" ∨ (readTrim (readTrim c).2).1 = "" then .ok (some "ERROR: Malformed input.", (readTrim (readTrim c).2).2)
  else if ¬ nameExists c.accounts (readTrim c).1 then
    .ok (some "ERROR: Account holder name mismatch.", (readTrim (readTrim c).2).2)
  else if ¬ isAccountOwnedBy c.accounts (readTrim (readTrim c).2).1 (readTrim c).1 then
    .ok (some "ERROR: Account number mismatch.", (readTrim (readTrim c).2).2)
  else
    .ok (some "Account deletion recorded.",
      { (readTrim (readTrim c).2).2 with
        accounts := deleteAccount c.accounts (readTrim (readTrim c).2).1
        deleted := (readTrim (readTrim c).2).2.deleted.insert (readTrim (readTrim c).2).1 })

/-- The `disable` branch of `handleOtherTransactions`.  The two reads are
`name` and `acc_num`. -/
def disableTx (c : Ctrl) : Except Unit (Option String × Ctrl) :=
  if ¬ c.session.admin_mode then
    .ok (some "ERROR: Privileged transaction not permitted.", (readTrim (readTrim c).2).2)
  else if (readTrim c).1 = "" ∨ (readTrim (readTrim c).2).1 = "" then .ok (some "ERROR: Malformed input.", (readTrim (readTrim c).2).2)
  else if ¬ doesAccountExist c.accounts (readTrim (readTrim c).2).1 then
    .ok (some "ERROR: Account does not exist.", (readTrim (readTrim c).2).2)
  else if ¬ isAccountOwnedBy c.accounts (readTrim (readTrim c).2).1 (readTrim c).1 then
    .ok (some "ERROR: Invalid account or holder.", (readTrim (readTrim c).2).2)
  else .ok (some "Account disabled.", { (readTrim (readTrim c).2).2 with accounts := disableAccount c.accounts (readTrim (readTrim c).2).1 })

/-- The `changeplan` branch of `handleOtherTransactions`.  The two reads
are `name` and `acc_num`. -/
def changeplanTx (c : Ctrl) : Except Unit (Option String × Ctrl) :=
  if ¬ c.session.admin_mode then
    .ok (some "ERROR: Privileged transaction not permitted.", (readTrim (readTrim c).2).2)
  else if (readTrim c).1 = "" ∨ (readTrim (readTrim c).2).1 = "" then .ok (some "ERROR: Malformed input.", (readTrim (readTrim c).2).2)
  else if ¬ doesAccountExist c.accounts (readTrim (readTrim c).2).1 ∨ ¬ isAccountOwnedBy c.accounts (readTrim (readTrim c).2).1 (readTrim c).1 then
    .ok (some "ERROR: Invalid account or holder.", (readTrim (readTrim c).2).2)
  else .ok (some "Account plan changed.", (readTrim (readTrim c).2).2)

/-- `FrontEndController.handleOtherTransactions` (argument already
lower-cased by `handleTransaction`, as in the source). -/
def handleOtherTransactions (code : String) (c : Ctrl) :
    Except Unit (Option String × Ctrl) :=
  if ¬ c.session.logged_in then
    if c.session.ever_logged_in then
      .ok (some "ERROR: Login required.", consumeParamsWhenNotLoggedIn code c)
    else
      .ok (some "ERROR: Transaction rejected. Login required.",
        consumeParamsWhenNotLoggedIn code c)
  else if code = "withdrawal" then withdrawalTx c
  else if code = "deposit" then depositTx c
  else if code = "transfer" then transferTx c
  else if code = "paybill" then paybillTx c
  else if code = "create" then createTx c
  else if code = "delete" then deleteTx c
  else if code = "disable" then disableTx c
  else if code = "changeplan" then changeplanTx c
  else .ok (some "ERROR: Unknown transaction code.", c)

/-- The transaction codes whose presence on the peeked line suppresses the
login banner. -/
def bankCodes : List String := ["deposit", "withdrawal", "transfer", "paybill"]

/-- The tail of `handleLogin` after a successful credential read: start the
session, peek one line, push it back unconsumed, and suppress the banner
when the peeked line is a bank transaction code. -/
def loginLookahead (mode name : String) (c : Ctrl) : Option String × Ctrl :=
  if strLower (strTrim (((nextLine
      { c with session := startSession c.session mode name }).1).getD "")) ∈ bankCodes then
    (none,
      pushBack (nextLine { c with session := startSession c.session mode name }).1
        (nextLine { c with session := startSession c.session mode name }).2)
  else
    (some ("Login successful (" ++ mode ++ ")."),
      pushBack (nextLine { c with session := startSession c.session mode name }).1
        (nextLine { c with session := startSession c.session mode name }).2)

/-- `FrontEndController.handleLogin`.  In the two `loginLookahead` calls the
mode string is written literally: the guards of the surrounding branches pin
it to `"standard"` resp. `"admin"`. -/
def handleLogin (c : Ctrl) : Option String × Ctrl :=
  if c.session.logged_in then
    if strLower (strTrim ((nextLine c).1.getD "")) = "standard" then
      (some "ERROR: Already logged in.", (nextLine (nextLine c).2).2)
    else (some "ERROR: Already logged in.", (nextLine c).2)
  else if strLower (strTrim ((nextLine c).1.getD "")) ≠ "admin" ∧
      strLower (strTrim ((nextLine c).1.getD "")) ≠ "standard" then
    (some "ERROR: Malformed input.", (nextLine c).2)
  else if strLower (strTrim ((nextLine c).1.getD "")) = "standard" then
    if strTrim ((nextLine (nextLine c).2).1.getD "") = "" then
      (some "ERROR: Malformed input.",
        { (nextLine (nextLine c).2).2 with
           session := startSession (nextLine (nextLine c).2).2.session "standard" "" })
    else
      loginLookahead "standard" (strTrim ((nextLine (nextLine c).2).1.getD ""))
        (nextLine (nextLine c).2).2
  else loginLookahead "admin" "" (nextLine c).2

/-- `FrontEndController.handleLogout`. -/
def handleLogout (c : Ctrl) : Option String × Ctrl :=
  if ¬ c.session.logged_in then (some "ERROR: No active session.", c)
  else
    (some "Transaction file written.",
      { c with
         records := c.records ++ [endOfSessionRecordLine]
         flushes := c.flushes ++ [c.records ++ [endOfSessionRecordLine]]
         session := endSession c.session
         created := []
         deleted := [] })

/-- `FrontEndController.handleTransaction`. -/
def handleTransaction (transactionCode : String) (c : Ctrl) :
    Except Unit (Option String × Ctrl) :=
  let code := strLower (strTrim transactionCode)
  if code = "login" then .ok (handleLogin c)
  else if code = "logout" then .ok (handleLogout c)
  else handleOtherTransactions code c

/-- The `FrontEndApplication.run` loop, with fuel (each iteration consumes
at least one line, so fuel at least the total line count is exact). -/
def runAll : Nat → Ctrl → Except Unit Ctrl
  | 0, c => .ok c
  | fuel + 1, c =>
    match (nextLine c).1 with
    | none => .ok (nextLine c).2
    | some line =>
      let transaction_code := strTrim line
      if transaction_code = "" then runAll fuel (nextLine c).2
      else match handleTransaction transaction_code (nextLine c).2 with
        | .error e => .error e
        | .ok (_, c2) => runAll fuel c2

/-- First stripped read of a money-movement handler (after the admin-mode
name-line skip). -/
def mr1 (c : Ctrl) : String := (readTrim (adminSkip c)).1

/-- Second stripped read of a money-movement handler. -/
def mr2 (c : Ctrl) : String := (readTrim (readTrim (adminSkip c)).2).1

/-- Third stripped read of a money-movement handler. -/
def mr3 (c : Ctrl) : String := (readTrim (readTrim (readTrim (adminSkip c)).2).2).1

/-- Reader state after the two reads of withdrawal/deposit. -/
def mrest2 (c : Ctrl) : Ctrl := (readTrim (readTrim (adminSkip c)).2).2

/-- Reader state after the three reads of transfer/paybill. -/
def mrest3 (c : Ctrl) : Ctrl := (readTrim (readTrim (readTrim (adminSkip c)).2).2).2

/-- First stripped read of a privileged handler (no admin skip). -/
def pr1 (c : Ctrl) : String := (readTrim c).1

/-- Second stripped read of a privileged handler. -/
def pr2 (c : Ctrl) : String := (readTrim (readTrim c).2).1

/-- Reader state after the two reads of a privileged handler. -/
def prest (c : Ctrl) : Ctrl := (readTrim (readTrim c).2).2

/-- The eight type-specific acceptance messages of
`handleOtherTransactions`; every other response is a rejection. -/
def acceptanceMessages : List String :=
  ["Withdrawal accepted.", "Deposit accepted.", "Transfer accepted.",
   "Bill payment accepted.", "Account creation recorded.", "Account deletion recorded.",
   "Account disabled.", "Account plan changed."]

/-- Decidable equality for handler results, so concrete runs can be
checked by `decide`. -/
instance {ε α : Type} [DecidableEq ε] [DecidableEq α] : DecidableEq (Except ε α) := fun x y =>
  match x, y with
  | .error a, .error b =>
      if h : a = b then isTrue (by rw [h]) else isFalse (fun hh => h (by injection hh))
  | .error _, .ok _ => isFalse (fun hh => Except.noConfusion hh)
  | .ok _, .error _ => isFalse (fun hh => Except.noConfusion hh)
  | .ok a, .ok b =>
      if h : a = b then isTrue (by rw [h]) else isFalse (fun hh => h (by injection hh))

/-- The initial `SessionState()` of a fresh process. -/
def freshSession : SessionState :=
  ⟨false, false, "", 0, 0, 0, false⟩

/-- An empty controller state: fresh session, empty ledger, no pending
records, empty reader. -/
def baseCtrl : Ctrl :=
  { session := freshSession, accounts := [], records := [], flushes := [],
    created := [], deleted := [], buffer := [], stream := [] }

/-- A logged-in standard session for the account holder `"Alice"`. -/
def aliceSession : SessionState := ⟨true, false, "Alice", 0, 0, 0, true⟩

/-- A logged-in admin session. -/
def adminSession : SessionState := ⟨true, true, "", 0, 0, 0, true⟩

/-- Concrete state: Alice holds 50.00 and asks to withdraw 100.00. -/
def c2wState : Ctrl :=
  { baseCtrl with
    session := aliceSession
    accounts := [("10001", ⟨"Alice", "A", 50⟩)]
    stream := ["10001", "100.00"] }

/-- The state `c2wState` reaches after the rejected withdrawal. -/
def c2wPost : Ctrl := { c2wState with stream := [] }

/-- Concrete state: Alice holds 50.00 and deposits 25.00. -/
def c8wState : Ctrl :=
  { baseCtrl with
    session := aliceSession
    accounts := [("10001", ⟨"Alice", "A", 50⟩)]
    stream := ["10001", "25.00"] }

/-- The state `c8wState` reaches after the accepted deposit. -/
def c8wPost : Ctrl :=
  { c8wState with accounts := [("10001", ⟨"Alice", "A", 75⟩)], stream := [] }

/-- Concrete state: an admin creates an account with a 100000.00 opening
balance (above the maximum). -/
def c8w2State : Ctrl :=
  { baseCtrl with
    session := adminSession
    stream := ["Bob", "100000.00"] }

/-- Concrete state: Alice holds exactly the maximum balance 99999.00 and
deposits 1.00 more. -/
def c8xState : Ctrl :=
  { baseCtrl with
    session := aliceSession
    accounts := [("10001", ⟨"Alice", "A", 99999⟩)]
    stream := ["10001", "1.00"] }

/-- Concrete state: Alice holds 1000.00 and asks to withdraw 600.00. -/
def c3wState : Ctrl :=
  { baseCtrl with
    session := aliceSession
    accounts := [("10001", ⟨"Alice", "A", 1000⟩)]
    stream := ["10001", "600.00"] }

/-- Concrete state: Alice holds 500.00 and asks to withdraw 600.00. -/
def c3wState2 : Ctrl :=
  { c3wState with accounts := [("10001", ⟨"Alice", "A", 500⟩)] }

/-- Concrete state: Alice holds 500.00 and withdraws exactly 500.00. -/
def c7wState : Ctrl :=
  { baseCtrl with
    session := aliceSession
    accounts := [("10001", ⟨"Alice", "A", 500⟩)]
    stream := ["10001", "500.00"] }

/-- Concrete state: an admin session in which account `"10001"` was
created earlier this session; the withdrawal names it but its amount line
is missing. -/
def c5xState : Ctrl :=
  { baseCtrl with
    session := adminSession
    accounts := [("10001", ⟨"Bob", "A", 100⟩)]
    created := ["10001"]
    stream := ["Bob", "10001"] }

/-- Concrete state: an admin session in which account `"10001"` was
created earlier this session; a well-formed withdrawal names it. -/
def c5wState : Ctrl :=
  { baseCtrl with
    session := adminSession
    accounts := [("10001", ⟨"Bob", "A", 100⟩)]
    created := ["10001"]
    stream := ["Bob", "10001", "10.00"] }

/-- Concrete state: an admin session with an empty ledger about to create
an account for Bob. -/
def c5cState : Ctrl :=
  { baseCtrl with
    session := adminSession
    stream := ["Bob", "250.00"] }

/-- The state `c5cState` reaches after the accepted create. -/
def c5cPost : Ctrl :=
  { c5cState with
    accounts := [("10001", ⟨"Bob", "A", 250⟩)]
    created := ["10001"]
    stream := [] }

/-- Two whole sessions: Alice logs in, withdraws 100.00, logs out; then
logs in again and immediately logs out. -/
def c9Init : Ctrl :=
  { baseCtrl with
    accounts := [("10001", ⟨"Alice", "A", 500⟩)]
    stream := ["login", "standard", "Alice", "withdrawal", "10001", "100.00", "logout",
               "login", "standard", "Alice", "logout"] }

/-- The `"01"` record written by the first session's withdrawal. -/
def c9rec1 : String := formatTransactionRecordLine "01" "Alice" "10001" 100

/-- The state `c7wState` reaches after the accepted full withdrawal. -/
def c7wPost : Ctrl :=
  { c7wState with
    accounts := [("10001", ⟨"Alice", "A", 0⟩)]
    records := [formatTransactionRecordLine "01" "Alice" "10001" 500]
    stream := [] }

/-- Concrete state: a standard login for Alice whose next line is a
deposit code (banner suppressed). -/
def c4wState : Ctrl :=
  { baseCtrl with stream := ["standard", "Alice", "deposit", "10001"] }

/-- Concrete state: a standard login whose holder-name line is blank. -/
def c6wState : Ctrl :=
  { baseCtrl with stream := ["standard", "   "] }

/-! ## Reader and ledger lemmas -/

@[simp] theorem nextLine_accounts (c : Ctrl) : (nextLine c).2.accounts = c.accounts := by
  rcases c with ⟨s, a, r, f, cr, de, buf, st⟩
  cases buf <;> cases st <;> rfl

@[simp] theorem nextLine_records (c : Ctrl) : (nextLine c).2.records = c.records := by
  rcases c with ⟨s, a, r, f, cr, de, buf, st⟩
  cases buf <;> cases st <;> rfl

@[simp] theorem nextLine_flushes (c : Ctrl) : (nextLine c).2.flushes = c.flushes := by
  rcases c with ⟨s, a, r, f, cr, de, buf, st⟩
  cases buf <;> cases st <;> rfl

@[simp] theorem nextLine_created (c : Ctrl) : (nextLine c).2.created = c.created := by
  rcases c with ⟨s, a, r, f, cr, de, buf, st⟩
  cases buf <;> cases st <;> rfl

@[simp] theorem nextLine_deleted (c : Ctrl) : (nextLine c).2.deleted = c.deleted := by
  rcases c with ⟨s, a, r, f, cr, de, buf, st⟩
  cases buf <;> cases st <;> rfl

@[simp] theorem nextLine_session (c : Ctrl) : (nextLine c).2.session = c.session := by
  rcases c with ⟨s, a, r, f, cr, de, buf, st⟩
  cases buf <;> cases st <;> rfl

@[simp] theorem readTrim_accounts (c : Ctrl) : (readTrim c).2.accounts = c.accounts := by
  simp [readTrim]

@[simp] theorem readTrim_records (c : Ctrl) : (readTrim c).2.records = c.records := by
  simp [readTrim]

@[simp] theorem readTrim_flushes (c : Ctrl) : (readTrim c).2.flushes = c.flushes := by
  simp [readTrim]

@[simp] theorem readTrim_created (c : Ctrl) : (readTrim c).2.created = c.created := by
  simp [readTrim]

@[simp] theorem readTrim_deleted (c : Ctrl) : (readTrim c).2.deleted = c.deleted := by
  simp [readTrim]

@[simp] theorem readTrim_session (c : Ctrl) : (readTrim c).2.session = c.session := by
  simp [readTrim]

@[simp] theorem adminSkip_accounts (c : Ctrl) : (adminSkip c).accounts = c.accounts := by
  unfold adminSkip; split <;> simp

@[simp] theorem adminSkip_records (c : Ctrl) : (adminSkip c).records = c.records := by
  unfold adminSkip; split <;> simp

@[simp] theorem adminSkip_flushes (c : Ctrl) : (adminSkip c).flushes = c.flushes := by
  unfold adminSkip; split <;> simp

@[simp] theorem adminSkip_created (c : Ctrl) : (adminSkip c).created = c.created := by
  unfold adminSkip; split <;> simp

@[simp] theorem adminSkip_deleted (c : Ctrl) : (adminSkip c).deleted = c.deleted := by
  unfold adminSkip; split <;> simp

@[simp] theorem adminSkip_session (c : Ctrl) : (adminSkip c).session = c.session := by
  unfold adminSkip; split <;> simp

@[simp] theorem consumeN_accounts (n : Nat) (c : Ctrl) : (consumeN n c).accounts = c.accounts := by
  induction n generalizing c with
  | zero => rfl
  | succ n ih => simp [consumeN, ih]

@[simp] theorem consumeN_records (n : Nat) (c : Ctrl) : (consumeN n c).records = c.records := by
  induction n generalizing c with
  | zero => rfl
  | succ n ih => simp [consumeN, ih]

@[simp] theorem consumeN_flushes (n : Nat) (c : Ctrl) : (consumeN n c).flushes = c.flushes := by
  induction n generalizing c with
  | zero => rfl
  | succ n ih => simp [consumeN, ih]

@[simp] theorem consumeN_created (n : Nat) (c : Ctrl) : (consumeN n c).created = c.created := by
  induction n generalizing c with
  | zero => rfl
  | succ n ih => simp [consumeN, ih]

@[simp] theorem consumeN_deleted (n : Nat) (c : Ctrl) : (consumeN n c).deleted = c.deleted := by
  induction n generalizing c with
  | zero => rfl
  | succ n ih => simp [consumeN, ih]

@[simp] theorem consumeN_session (n : Nat) (c : Ctrl) : (consumeN n c).session = c.session := by
  induction n generalizing c with
  | zero => rfl
  | succ n ih => simp [consumeN, ih]

/-- A single read drops exactly one line from the combined
buffer-and-stream view (at end of stream both sides are empty). -/
theorem nextLine_drop (c : Ctrl) :
    (nextLine c).2.buffer ++ (nextLine c).2.stream = (c.buffer ++ c.stream).drop 1 := by
  rcases c with ⟨s, a, r, f, cr, de, buf, st⟩
  cases buf <;> cases st <;> simp [nextLine]

theorem readTrim_drop (c : Ctrl) :
    (readTrim c).2.buffer ++ (readTrim c).2.stream = (c.buffer ++ c.stream).drop 1 := by
  simpa [readTrim] using nextLine_drop c

/-- `consumeN n` drops exactly `n` lines from the combined
buffer-and-stream view. -/
theorem consumeN_drop (n : Nat) (c : Ctrl) :
    (consumeN n c).buffer ++ (consumeN n c).stream = (c.buffer ++ c.stream).drop n := by
  induction n generalizing c with
  | zero => rfl
  | succ n ih =>
      rw [consumeN, ih, nextLine_drop, List.drop_drop]
      congr 1
      omega

/-- Reading the EOF sentinel leaves the reader state unchanged and both
line sources empty. -/
theorem nextLine_eq_none (c : Ctrl) (h : (nextLine c).1 = none) :
    (nextLine c).2 = c ∧ c.buffer = [] ∧ c.stream = [] := by
  rcases c with ⟨s, a, r, f, cr, de, buf, st⟩
  cases buf <;> cases st <;> simp_all [nextLine]

/-- Pushing back a concrete line makes the very next read return it with
the prior state restored. -/
theorem nextLine_pushBack (l : String) (c : Ctrl) :
    nextLine (pushBack (some l) c) = (some l, c) := by
  rcases c with ⟨s, a, r, f, cr, de, buf, st⟩
  rfl

@[simp] theorem dictGet_dictSet (a : Ledger) (k k' : String) (v : Account) :
    dictGet (dictSet a k v) k' = if k = k' then some v else dictGet a k' := by
  induction a with
  | nil => simp [dictSet, dictGet]
  | cons hd t ih =>
      rcases hd with ⟨hk, hv⟩
      by_cases h1 : hk = k
      · subst h1
        by_cases h2 : hk = k' <;> simp [dictSet, dictGet, h2]
      · by_cases h2 : hk = k'
        · subst h2
          simp [dictSet, dictGet, h1, Ne.symm h1]
        · simp [dictSet, dictGet, h1, h2, ih]

/-- `setBalance?` fails exactly on a missing key. -/
theorem setBalance?_isSome (a : Ledger) (k : String) (b : ℚ) :
    (setBalance? a k b).isSome = (dictGet a k).isSome := by
  induction a with
  | nil => simp [setBalance?, dictGet]
  | cons hd t ih =>
      rcases hd with ⟨hk, hv⟩
      by_cases h1 : hk = k <;> simp [setBalance?, dictGet, h1, ih]

/-- A successful `setBalance?` rewrites exactly the stored balance of the
targeted key. -/
theorem dictGet_setBalance? (a a' : Ledger) (k : String) (b : ℚ)
    (h : setBalance? a k b = some a') (k' : String) :
    dictGet a' k' = if k = k' then (dictGet a k').map (fun v => { v with balance := b })
      else dictGet a k' := by
  induction a generalizing a' with
  | nil => simp [setBalance?] at h
  | cons hd t ih =>
      rcases hd with ⟨hk, hv⟩
      by_cases h1 : hk = k
      · subst h1
        simp only [setBalance?, if_pos rfl] at h
        cases h
        by_cases h2 : hk = k' <;> simp [dictGet, h2]
      · simp only [setBalance?, if_neg h1] at h
        rcases h3 : setBalance? t k b with _ | t'
        · simp [h3] at h
        · simp only [h3, Option.map_some] at h
          cases h
          by_cases h2 : hk = k'
          · subst h2
            have : k ≠ hk := fun hh => h1 hh.symm
            simp [dictGet, this]
          · simp [dictGet, h2, ih t' h3]

/-- Whenever the arity table knows a code, that code is one of the eight
lower-case literals, so lower-casing it is the identity. -/
theorem consumeArity_toLower_self (code : String) (n : Nat)
    (har : consumeArity code = some n) : strLower code = code := by
  unfold consumeArity at har
  split_ifs at har with h1 h2 h3 h4 h5 h6 h7 h8
  · rw [h1]; decide
  · rw [h2]; decide
  · rw [h3]; decide
  · rw [h4]; decide
  · rw [h5]; decide
  · rw [h6]; decide
  · rw [h7]; decide
  · rw [h8]; decide

/-- C1: for every non-login transaction code with a fixed line-arity
(withdrawal/deposit = 3, transfer/paybill = 4,
create/delete/disable/changeplan = 2), if no session is logged in,
handling that code consumes exactly that many lines from the reader
before returning (leaving all other controller state untouched), and the
returned rejection is the `Login required.` message when some login has
already succeeded in this process (`ever_logged_in`) and the
`Transaction rejected. Login required.` message otherwise. -/
theorem notLoggedIn_consumes_arity_and_rejects (code : String) (n : Nat) (c : Ctrl)
    (hlog : c.session.logged_in = false) (har : consumeArity code = some n) :
    ∃ c', handleOtherTransactions code c =
        .ok (some (if c.session.ever_logged_in then "ERROR: Login required."
          else "ERROR: Transaction rejected. Login required."), c') ∧
      c'.buffer ++ c'.stream = (c.buffer ++ c.stream).drop n ∧
      c'.accounts = c.accounts ∧ c'.records = c.records ∧ c'.session = c.session ∧
      c'.created = c.created ∧ c'.deleted = c.deleted := by
  have hlow := consumeArity_toLower_self code n har
  have hcp : consumeParamsWhenNotLoggedIn code c = consumeN n c := by
    rw [consumeParamsWhenNotLoggedIn, hlow, har]
  refine ⟨consumeParamsWhenNotLoggedIn code c, ?_, ?_, ?_, ?_, ?_, ?_, ?_⟩
  · rw [handleOtherTransactions]
    by_cases he : c.session.ever_logged_in <;> simp [hlog, he]
  · rw [hcp]; exact consumeN_drop n c
  · rw [hcp]; simp
  · rw [hcp]; simp
  · rw [hcp]; simp
  · rw [hcp]; simp
  · rw [hcp]; simp

/-- Concrete state for exercising the C1 theorem: fresh process, four
pending input lines. -/
def c1State : Ctrl := { baseCtrl with stream := ["a", "b", "c", "d"] }

/-- Witness for C1 at `code = "withdrawal"`, `n = 3`: the hypotheses hold
for `c1State` and exactly three of its four lines are consumed. -/
theorem notLoggedIn_consumes_arity_and_rejects_witness :
    c1State.session.logged_in = false ∧ consumeArity "withdrawal" = some 3 ∧
    ∃ c', handleOtherTransactions "withdrawal" c1State =
        .ok (some (if c1State.session.ever_logged_in then "ERROR: Login required."
          else "ERROR: Transaction rejected. Login required."), c') ∧
      c'.buffer ++ c'.stream = (c1State.buffer ++ c1State.stream).drop 3 ∧
      c'.accounts = c1State.accounts ∧ c'.records = c1State.records ∧
      c'.session = c1State.session ∧
      c'.created = c1State.created ∧ c'.deleted = c1State.deleted :=
  ⟨rfl, by decide,
    notLoggedIn_consumes_arity_and_rejects "withdrawal" 3 c1State rfl (by decide)⟩

/-- `setBalance?` returns `none` exactly when the key is absent. -/
theorem setBalance?_eq_none (a : Ledger) (k : String) (b : ℚ) :
    setBalance? a k b = none ↔ dictGet a k = none := by
  have h := setBalance?_isSome a k b
  constructor
  · intro hn
    rw [hn] at h
    exact Option.not_isSome_iff_eq_none.mp (by simp [← h])
  · intro hn
    rw [hn] at h
    exact Option.not_isSome_iff_eq_none.mp (by simp [h])


/-- An `Except Unit` computation that is not the `KeyError` marker is an
`.ok`. -/
theorem exists_ok_of_ne_error {α : Type} (e : Except Unit α) (h : e ≠ .error ()) :
    ∃ out, e = .ok out := by
  cases e with
  | error u => cases u; exact absurd rfl h
  | ok v => exact ⟨v, rfl⟩

/-- Keys (and key presence) are untouched by a successful `setBalance?`. -/
theorem dictGet_isSome_setBalance? (a a' : Ledger) (k : String) (b : ℚ) (k' : String)
    (h : setBalance? a k b = some a') :
    (dictGet a' k').isSome = (dictGet a k').isSome := by
  rw [dictGet_setBalance? a a' k b h k']
  split <;> simp

/-- An existing account id always has a readable balance. -/
theorem getBalance?_isSome_of_exists (a : Ledger) (k : String)
    (h : doesAccountExist a k = true) : ∃ b, getBalance? a k = some b := by
  unfold doesAccountExist at h
  rcases hd : dictGet a k with _ | v
  · rw [hd] at h; simp at h
  · exact ⟨v.balance, by simp [getBalance?, hd]⟩

/-- An existing account id always has a writable balance. -/
theorem setBalance?_isSome_of_exists (a : Ledger) (k : String) (b : ℚ)
    (h : doesAccountExist a k = true) : ∃ a', setBalance? a k b = some a' := by
  apply Option.isSome_iff_exists.mp
  rw [setBalance?_isSome]
  exact h

/-- Exhaustive shape of a `withdrawal`: the handler always returns a
response; a rejection leaves exactly the read-consumed state, and the
acceptance happens precisely after all checks pass, decrementing the
balance and appending one `"01"` record. -/
theorem withdrawalTx_shape (c : Ctrl) :
    ∃ r c', withdrawalTx c = .ok (some r, c') ∧
      ((r ≠ "Withdrawal accepted." ∧ c' = mrest2 c) ∨
        (r = "Withdrawal accepted." ∧
          ∃ amount bal accounts',
            parseDecimal (mr2 c) = some amount ∧ 0 ≤ amount ∧
            getBalance? c.accounts (mr1 c) = some bal ∧ amount ≤ bal ∧
            setBalance? c.accounts (mr1 c) (bal - amount) = some accounts' ∧
            c' = { mrest2 c with
                   accounts := accounts'
                   records := (mrest2 c).records ++
                     [formatTransactionRecordLine "01" c.session.account_holder_name
                       (mr1 c) amount] })) := by
  unfold withdrawalTx
  by_cases h1 : (readTrim (adminSkip c)).1 = "" ∨ (readTrim (readTrim (adminSkip c)).2).1 = ""
  · rw [if_pos h1]; exact ⟨_, _, rfl, Or.inl ⟨by decide, rfl⟩⟩
  rw [if_neg h1]
  by_cases h2 : (readTrim (adminSkip c)).1.length ≠ 5 ∨
      ¬ (readTrim (adminSkip c)).1.data.all Char.isDigit
  · rw [if_pos h2]; exact ⟨_, _, rfl, Or.inl ⟨by decide, rfl⟩⟩
  rw [if_neg h2]
  by_cases h3 : (readTrim (adminSkip c)).1 ∈ c.deleted
  · rw [if_pos h3]; exact ⟨_, _, rfl, Or.inl ⟨by decide, rfl⟩⟩
  rw [if_neg h3]
  by_cases h4 : (readTrim (adminSkip c)).1 ∈ c.created
  · rw [if_pos h4]; exact ⟨_, _, rfl, Or.inl ⟨by decide, rfl⟩⟩
  rw [if_neg h4]
  by_cases h5 : ¬ doesAccountExist c.accounts (readTrim (adminSkip c)).1
  · rw [if_pos h5]; exact ⟨_, _, rfl, Or.inl ⟨by decide, rfl⟩⟩
  rw [if_neg h5]
  by_cases h6 : isAccountDisabled c.accounts (readTrim (adminSkip c)).1
  · rw [if_pos h6]; exact ⟨_, _, rfl, Or.inl ⟨by decide, rfl⟩⟩
  rw [if_neg h6]
  by_cases h7 : ¬ c.session.admin_mode ∧
      ¬ isAccountOwnedBy c.accounts (readTrim (adminSkip c)).1 c.session.account_holder_name
  · rw [if_pos h7]; exact ⟨_, _, rfl, Or.inl ⟨by decide, rfl⟩⟩
  rw [if_neg h7]
  rcases hp : parseDecimal ((readTrim (readTrim (adminSkip c)).2).1) with _ | amount
  · simp only [hp]; exact ⟨_, _, rfl, Or.inl ⟨by decide, rfl⟩⟩
  simp only [hp]
  by_cases h8 : amount < 0
  · rw [if_pos h8]; exact ⟨_, _, rfl, Or.inl ⟨by decide, rfl⟩⟩
  rw [if_neg h8]
  obtain ⟨bal, hg⟩ := getBalance?_isSome_of_exists c.accounts _ (not_not.mp h5)
  simp only [hg]
  by_cases h9 : bal < amount
  · rw [if_pos h9]; exact ⟨_, _, rfl, Or.inl ⟨by decide, rfl⟩⟩
  rw [if_neg h9]
  by_cases h10 : ¬ c.session.admin_mode ∧ WITHDRAWAL_LIMIT_STANDARD < amount
  · rw [if_pos h10]; exact ⟨_, _, rfl, Or.inl ⟨by decide, rfl⟩⟩
  rw [if_neg h10]
  obtain ⟨accounts', hset⟩ :=
    setBalance?_isSome_of_exists c.accounts _ (bal - amount) (not_not.mp h5)
  simp only [hset]
  exact ⟨_, _, rfl,
    Or.inr ⟨rfl, amount, bal, accounts', hp, not_lt.mp h8, hg, not_lt.mp h9, hset, rfl⟩⟩

/-- Exhaustive shape of a `deposit`: a rejection leaves exactly the
read-consumed state; the acceptance increments the balance (with no upper
bound applied) and appends no record. -/
theorem depositTx_shape (c : Ctrl) :
    ∃ r c', depositTx c = .ok (some r, c') ∧
      ((r ≠ "Deposit accepted." ∧ c' = mrest2 c) ∨
        (r = "Deposit accepted." ∧
          ∃ amount bal accounts',
            parseDecimal (mr2 c) = some amount ∧ 0 ≤ amount ∧
            getBalance? c.accounts (mr1 c) = some bal ∧
            setBalance? c.accounts (mr1 c) (bal + amount) = some accounts' ∧
            c' = { mrest2 c with accounts := accounts' })) := by
  unfold depositTx
  by_cases h1 : (readTrim (adminSkip c)).1 = "" ∨ (readTrim (readTrim (adminSkip c)).2).1 = ""
  · rw [if_pos h1]; exact ⟨_, _, rfl, Or.inl ⟨by decide, rfl⟩⟩
  rw [if_neg h1]
  by_cases h3 : (readTrim (adminSkip c)).1 ∈ c.deleted
  · rw [if_pos h3]; exact ⟨_, _, rfl, Or.inl ⟨by decide, rfl⟩⟩
  rw [if_neg h3]
  by_cases h4 : (readTrim (adminSkip c)).1 ∈ c.created
  · rw [if_pos h4]; exact ⟨_, _, rfl, Or.inl ⟨by decide, rfl⟩⟩
  rw [if_neg h4]
  by_cases h5 : ¬ doesAccountExist c.accounts (readTrim (adminSkip c)).1
  · rw [if_pos h5]; exact ⟨_, _, rfl, Or.inl ⟨by decide, rfl⟩⟩
  rw [if_neg h5]
  by_cases h6 : isAccountDisabled c.accounts (readTrim (adminSkip c)).1
  · rw [if_pos h6]; exact ⟨_, _, rfl, Or.inl ⟨by decide, rfl⟩⟩
  rw [if_neg h6]
  by_cases h7 : ¬ c.session.admin_mode ∧
      ¬ isAccountOwnedBy c.accounts (readTrim (adminSkip c)).1 c.session.account_holder_name
  · rw [if_pos h7]; exact ⟨_, _, rfl, Or.inl ⟨by decide, rfl⟩⟩
  rw [if_neg h7]
  rcases hp : parseDecimal ((readTrim (readTrim (adminSkip c)).2).1) with _ | amount
  · simp only [hp]; exact ⟨_, _, rfl, Or.inl ⟨by decide, rfl⟩⟩
  simp only [hp]
  by_cases h8 : amount < 0
  · rw [if_pos h8]; exact ⟨_, _, rfl, Or.inl ⟨by decide, rfl⟩⟩
  rw [if_neg h8]
  obtain ⟨bal, hg⟩ := getBalance?_isSome_of_exists c.accounts _ (not_not.mp h5)
  simp only [hg]
  obtain ⟨accounts', hset⟩ :=
    setBalance?_isSome_of_exists c.accounts _ (bal + amount) (not_not.mp h5)
  simp only [hset]
  exact ⟨_, _, rfl, Or.inr ⟨rfl, amount, bal, accounts', hp, not_lt.mp h8, hg, hset, rfl⟩⟩

/-- Exhaustive shape of a `transfer`: a rejection leaves exactly the
read-consumed state; the acceptance decrements the source and increments
the destination (read back after the source write). -/
theorem transferTx_shape (c : Ctrl) :
    ∃ r c', transferTx c = .ok (some r, c') ∧
      ((r ≠ "Transfer accepted." ∧ c' = mrest3 c) ∨
        (r = "Transfer accepted." ∧
          ∃ amount fromBal a1 toBal a2,
            parseDecimal (mr3 c) = some amount ∧ 0 ≤ amount ∧
            getBalance? c.accounts (mr1 c) = some fromBal ∧ amount ≤ fromBal ∧
            setBalance? c.accounts (mr1 c) (fromBal - amount) = some a1 ∧
            getBalance? a1 (mr2 c) = some toBal ∧
            setBalance? a1 (mr2 c) (toBal + amount) = some a2 ∧
            c' = { mrest3 c with accounts := a2 })) := by
  unfold transferTx
  by_cases h1 : (readTrim (adminSkip c)).1 = "" ∨ (readTrim (readTrim (adminSkip c)).2).1 = "" ∨
      (readTrim (readTrim (readTrim (adminSkip c)).2).2).1 = ""
  · rw [if_pos h1]; exact ⟨_, _, rfl, Or.inl ⟨by decide, rfl⟩⟩
  rw [if_neg h1]
  by_cases h3 : (readTrim (adminSkip c)).1 ∈ c.deleted ∨
      (readTrim (readTrim (adminSkip c)).2).1 ∈ c.deleted
  · rw [if_pos h3]; exact ⟨_, _, rfl, Or.inl ⟨by decide, rfl⟩⟩
  rw [if_neg h3]
  by_cases h4 : (readTrim (adminSkip c)).1 ∈ c.created ∨
      (readTrim (readTrim (adminSkip c)).2).1 ∈ c.created
  · rw [if_pos h4]; exact ⟨_, _, rfl, Or.inl ⟨by decide, rfl⟩⟩
  rw [if_neg h4]
  by_cases h5 : ¬ doesAccountExist c.accounts (readTrim (adminSkip c)).1
  · rw [if_pos h5]; exact ⟨_, _, rfl, Or.inl ⟨by decide, rfl⟩⟩
  rw [if_neg h5]
  by_cases h5b : ¬ doesAccountExist c.accounts (readTrim (readTrim (adminSkip c)).2).1
  · rw [if_pos h5b]; exact ⟨_, _, rfl, Or.inl ⟨by decide, rfl⟩⟩
  rw [if_neg h5b]
  by_cases h6 : isAccountDisabled c.accounts (readTrim (adminSkip c)).1 ∨
      isAccountDisabled c.accounts (readTrim (readTrim (adminSkip c)).2).1
  · rw [if_pos h6]; exact ⟨_, _, rfl, Or.inl ⟨by decide, rfl⟩⟩
  rw [if_neg h6]
  by_cases h7 : ¬ c.session.admin_mode ∧
      ¬ isAccountOwnedBy c.accounts (readTrim (adminSkip c)).1 c.session.account_holder_name
  · rw [if_pos h7]; exact ⟨_, _, rfl, Or.inl ⟨by decide, rfl⟩⟩
  rw [if_neg h7]
  rcases hp : parseDecimal ((readTrim (readTrim (readTrim (adminSkip c)).2).2).1) with _ | amount
  · simp only [hp]; exact ⟨_, _, rfl, Or.inl ⟨by decide, rfl⟩⟩
  simp only [hp]
  by_cases h8 : amount < 0
  · rw [if_pos h8]; exact ⟨_, _, rfl, Or.inl ⟨by decide, rfl⟩⟩
  rw [if_neg h8]
  obtain ⟨fromBal, hg⟩ := getBalance?_isSome_of_exists c.accounts _ (not_not.mp h5)
  simp only [hg]
  by_cases h9 : fromBal < amount
  · rw [if_pos h9]; exact ⟨_, _, rfl, Or.inl ⟨by decide, rfl⟩⟩
  rw [if_neg h9]
  by_cases h10 : ¬ c.session.admin_mode ∧ TRANSFER_LIMIT_STANDARD < amount
  · rw [if_pos h10]; exact ⟨_, _, rfl, Or.inl ⟨by decide, rfl⟩⟩
  rw [if_neg h10]
  obtain ⟨a1, hset1⟩ :=
    setBalance?_isSome_of_exists c.accounts _ (fromBal - amount) (not_not.mp h5)
  simp only [hset1]
  have hTo : doesAccountExist a1 (readTrim (readTrim (adminSkip c)).2).1 = true := by
    unfold doesAccountExist
    rw [dictGet_isSome_setBalance? c.accounts a1 _ _ _ hset1]
    exact not_not.mp h5b
  obtain ⟨toBal, hg2⟩ := getBalance?_isSome_of_exists a1 _ hTo
  simp only [hg2]
  obtain ⟨a2, hset2⟩ := setBalance?_isSome_of_exists a1 _ (toBal + amount) hTo
  simp only [hset2]
  exact ⟨_, _, rfl, Or.inr ⟨rfl, amount, fromBal, a1, toBal, a2, hp, not_lt.mp h8, hg,
    not_lt.mp h9, hset1, hg2, hset2, rfl⟩⟩

/-- Exhaustive shape of a `paybill`: a rejection leaves exactly the
read-consumed state; the acceptance decrements the balance. -/
theorem paybillTx_shape (c : Ctrl) :
    ∃ r c', paybillTx c = .ok (some r, c') ∧
      ((r ≠ "Bill payment accepted." ∧ c' = mrest3 c) ∨
        (r = "Bill payment accepted." ∧
          ∃ amount bal accounts',
            parseDecimal (mr3 c) = some amount ∧ 0 ≤ amount ∧
            getBalance? c.accounts (mr1 c) = some bal ∧ amount ≤ bal ∧
            setBalance? c.accounts (mr1 c) (bal - amount) = some accounts' ∧
            c' = { mrest3 c with accounts := accounts' })) := by
  unfold paybillTx
  by_cases h1 : (readTrim (adminSkip c)).1 = "" ∨ (readTrim (readTrim (adminSkip c)).2).1 = "" ∨
      (readTrim (readTrim (readTrim (adminSkip c)).2).2).1 = ""
  · rw [if_pos h1]; exact ⟨_, _, rfl, Or.inl ⟨by decide, rfl⟩⟩
  rw [if_neg h1]
  by_cases h3 : (readTrim (adminSkip c)).1 ∈ c.deleted
  · rw [if_pos h3]; exact ⟨_, _, rfl, Or.inl ⟨by decide, rfl⟩⟩
  rw [if_neg h3]
  by_cases h4 : (readTrim (adminSkip c)).1 ∈ c.created
  · rw [if_pos h4]; exact ⟨_, _, rfl, Or.inl ⟨by decide, rfl⟩⟩
  rw [if_neg h4]
  by_cases h5 : ¬ doesAccountExist c.accounts (readTrim (adminSkip c)).1
  · rw [if_pos h5]; exact ⟨_, _, rfl, Or.inl ⟨by decide, rfl⟩⟩
  rw [if_neg h5]
  by_cases h6 : isAccountDisabled c.accounts (readTrim (adminSkip c)).1
  · rw [if_pos h6]; exact ⟨_, _, rfl, Or.inl ⟨by decide, rfl⟩⟩
  rw [if_neg h6]
  by_cases h7 : ¬ c.session.admin_mode ∧
      ¬ isAccountOwnedBy c.accounts (readTrim (adminSkip c)).1 c.session.account_holder_name
  · rw [if_pos h7]; exact ⟨_, _, rfl, Or.inl ⟨by decide, rfl⟩⟩
  rw [if_neg h7]
  by_cases hc : (readTrim (readTrim (adminSkip c)).2).1 ∉ VALID_BILL_COMPANIES
  · rw [if_pos hc]; exact ⟨_, _, rfl, Or.inl ⟨by decide, rfl⟩⟩
  rw [if_neg hc]
  rcases hp : parseDecimal ((readTrim (readTrim (readTrim (adminSkip c)).2).2).1) with _ | amount
  · simp only [hp]; exact ⟨_, _, rfl, Or.inl ⟨by decide, rfl⟩⟩
  simp only [hp]
  by_cases h8 : amount < 0
  · rw [if_pos h8]; exact ⟨_, _, rfl, Or.inl ⟨by decide, rfl⟩⟩
  rw [if_neg h8]
  by_cases h10 : ¬ c.session.admin_mode ∧ PAYBILL_LIMIT_STANDARD < amount
  · rw [if_pos h10]; exact ⟨_, _, rfl, Or.inl ⟨by decide, rfl⟩⟩
  rw [if_neg h10]
  obtain ⟨bal, hg⟩ := getBalance?_isSome_of_exists c.accounts _ (not_not.mp h5)
  simp only [hg]
  by_cases h9 : bal < amount
  · rw [if_pos h9]; exact ⟨_, _, rfl, Or.inl ⟨by decide, rfl⟩⟩
  rw [if_neg h9]
  obtain ⟨accounts', hset⟩ :=
    setBalance?_isSome_of_exists c.accounts _ (bal - amount) (not_not.mp h5)
  simp only [hset]
  exact ⟨_, _, rfl, Or.inr ⟨rfl, amount, bal, accounts', hp, not_lt.mp h8, hg,
    not_lt.mp h9, hset, rfl⟩⟩

/-- Exhaustive shape of a `create`: a rejection leaves exactly the
read-consumed state; the acceptance inserts a fresh id (recorded in the
created-this-session set) with the parsed initial balance. -/
theorem createTx_shape (c : Ctrl) :
    ∃ r c', createTx c = .ok (some r, c') ∧
      ((r ≠ "Account creation recorded." ∧ c' = prest c) ∨
        (r = "Account creation recorded." ∧
          ∃ balance new_num,
            parseDecimal (pr2 c) = some balance ∧ balance ≤ MAX_BALANCE ∧
            findNextAvailableAccountNumber c.accounts = some new_num ∧
            c' = { prest c with
                   accounts := createAccount c.accounts new_num (pr1 c) balance
                   created := (prest c).created.insert new_num })) := by
  unfold createTx
  by_cases hA : ¬ c.session.admin_mode
  · rw [if_pos hA]; exact ⟨_, _, rfl, Or.inl ⟨by decide, rfl⟩⟩
  rw [if_neg hA]
  by_cases h1 : (readTrim c).1 = "" ∨ (readTrim (readTrim c).2).1 = ""
  · rw [if_pos h1]; exact ⟨_, _, rfl, Or.inl ⟨by decide, rfl⟩⟩
  rw [if_neg h1]
  by_cases h2 : MAX_ACCOUNT_NAME_LEN < (readTrim c).1.length
  · rw [if_pos h2]; exact ⟨_, _, rfl, Or.inl ⟨by decide, rfl⟩⟩
  rw [if_neg h2]
  rcases hp : parseDecimal ((readTrim (readTrim c).2).1) with _ | balance
  · simp only [hp]; exact ⟨_, _, rfl, Or.inl ⟨by decide, rfl⟩⟩
  simp only [hp]
  by_cases hM : MAX_BALANCE < balance
  · rw [if_pos hM]; exact ⟨_, _, rfl, Or.inl ⟨by decide, rfl⟩⟩
  rw [if_neg hM]
  by_cases hD : nameExists c.accounts (readTrim c).1
  · rw [if_pos hD]; exact ⟨_, _, rfl, Or.inl ⟨by decide, rfl⟩⟩
  rw [if_neg hD]
  rcases hn : findNextAvailableAccountNumber c.accounts with _ | new_num
  · simp only [hn]; exact ⟨_, _, rfl, Or.inl ⟨by decide, rfl⟩⟩
  simp only [hn]
  exact ⟨_, _, rfl, Or.inr ⟨rfl, balance, new_num, hp, not_lt.mp hM, rfl, rfl⟩⟩

/-- Exhaustive shape of a `delete`: a rejection leaves exactly the
read-consumed state; the acceptance removes the id and records it in the
deleted-this-session set. -/
theorem deleteTx_shape (c : Ctrl) :
    ∃ r c', deleteTx c = .ok (some r, c') ∧
      ((r ≠ "Account deletion recorded." ∧ c' = prest c) ∨
        (r = "Account deletion recorded." ∧
          c' = { prest c with
                 accounts := deleteAccount c.accounts (pr2 c)
                 deleted := (prest c).deleted.insert (pr2 c) })) := by
  unfold deleteTx
  by_cases hA : ¬ c.session.admin_mode
  · rw [if_pos hA]; exact ⟨_, _, rfl, Or.inl ⟨by decide, rfl⟩⟩
  rw [if_neg hA]
  by_cases h1 : (readTrim c).1 = "" ∨ (readTrim (readTrim c).2).1 = ""
  · rw [if_pos h1]; exact ⟨_, _, rfl, Or.inl ⟨by decide, rfl⟩⟩
  rw [if_neg h1]
  by_cases h2 : ¬ nameExists c.accounts (readTrim c).1
  · rw [if_pos h2]; exact ⟨_, _, rfl, Or.inl ⟨by decide, rfl⟩⟩
  rw [if_neg h2]
  by_cases h3 : ¬ isAccountOwnedBy c.accounts (readTrim (readTrim c).2).1 (readTrim c).1
  · rw [if_pos h3]; exact ⟨_, _, rfl, Or.inl ⟨by decide, rfl⟩⟩
  rw [if_neg h3]
  exact ⟨_, _, rfl, Or.inr ⟨rfl, rfl⟩⟩

/-- Exhaustive shape of a `disable`: a rejection leaves exactly the
read-consumed state; the acceptance flips the status to `"D"`. -/
theorem disableTx_shape (c : Ctrl) :
    ∃ r c', disableTx c = .ok (some r, c') ∧
      ((r ≠ "Account disabled." ∧ c' = prest c) ∨
        (r = "Account disabled." ∧
          c' = { prest c with accounts := disableAccount c.accounts (pr2 c) })) := by
  unfold disableTx
  by_cases hA : ¬ c.session.admin_mode
  · rw [if_pos hA]; exact ⟨_, _, rfl, Or.inl ⟨by decide, rfl⟩⟩
  rw [if_neg hA]
  by_cases h1 : (readTrim c).1 = "" ∨ (readTrim (readTrim c).2).1 = ""
  · rw [if_pos h1]; exact ⟨_, _, rfl, Or.inl ⟨by decide, rfl⟩⟩
  rw [if_neg h1]
  by_cases h2 : ¬ doesAccountExist c.accounts (readTrim (readTrim c).2).1
  · rw [if_pos h2]; exact ⟨_, _, rfl, Or.inl ⟨by decide, rfl⟩⟩
  rw [if_neg h2]
  by_cases h3 : ¬ isAccountOwnedBy c.accounts (readTrim (readTrim c).2).1 (readTrim c).1
  · rw [if_pos h3]; exact ⟨_, _, rfl, Or.inl ⟨by decide, rfl⟩⟩
  rw [if_neg h3]
  exact ⟨_, _, rfl, Or.inr ⟨rfl, rfl⟩⟩

/-- Exhaustive shape of a `changeplan`: every outcome, acceptance
included, leaves exactly the read-consumed state. -/
theorem changeplanTx_shape (c : Ctrl) :
    ∃ r, changeplanTx c = .ok (some r, prest c) := by
  unfold changeplanTx
  by_cases hA : ¬ c.session.admin_mode
  · rw [if_pos hA]; exact ⟨_, rfl⟩
  rw [if_neg hA]
  by_cases h1 : (readTrim c).1 = "" ∨ (readTrim (readTrim c).2).1 = ""
  · rw [if_pos h1]; exact ⟨_, rfl⟩
  rw [if_neg h1]
  by_cases h2 : ¬ doesAccountExist c.accounts (readTrim (readTrim c).2).1 ∨
      ¬ isAccountOwnedBy c.accounts (readTrim (readTrim c).2).1 (readTrim c).1
  · rw [if_pos h2]; exact ⟨_, rfl⟩
  rw [if_neg h2]
  exact ⟨_, rfl⟩

@[simp] theorem mrest2_accounts (c : Ctrl) : (mrest2 c).accounts = c.accounts := by
  simp [mrest2]

@[simp] theorem mrest2_records (c : Ctrl) : (mrest2 c).records = c.records := by
  simp [mrest2]

@[simp] theorem mrest2_flushes (c : Ctrl) : (mrest2 c).flushes = c.flushes := by
  simp [mrest2]

@[simp] theorem mrest2_created (c : Ctrl) : (mrest2 c).created = c.created := by
  simp [mrest2]

@[simp] theorem mrest2_deleted (c : Ctrl) : (mrest2 c).deleted = c.deleted := by
  simp [mrest2]

@[simp] theorem mrest2_session (c : Ctrl) : (mrest2 c).session = c.session := by
  simp [mrest2]

@[simp] theorem mrest3_accounts (c : Ctrl) : (mrest3 c).accounts = c.accounts := by
  simp [mrest3]

@[simp] theorem mrest3_records (c : Ctrl) : (mrest3 c).records = c.records := by
  simp [mrest3]

@[simp] theorem mrest3_flushes (c : Ctrl) : (mrest3 c).flushes = c.flushes := by
  simp [mrest3]

@[simp] theorem mrest3_created (c : Ctrl) : (mrest3 c).created = c.created := by
  simp [mrest3]

@[simp] theorem mrest3_deleted (c : Ctrl) : (mrest3 c).deleted = c.deleted := by
  simp [mrest3]

@[simp] theorem mrest3_session (c : Ctrl) : (mrest3 c).session = c.session := by
  simp [mrest3]

@[simp] theorem prest_accounts (c : Ctrl) : (prest c).accounts = c.accounts := by
  simp [prest]

@[simp] theorem prest_records (c : Ctrl) : (prest c).records = c.records := by
  simp [prest]

@[simp] theorem prest_flushes (c : Ctrl) : (prest c).flushes = c.flushes := by
  simp [prest]

@[simp] theorem prest_created (c : Ctrl) : (prest c).created = c.created := by
  simp [prest]

@[simp] theorem prest_deleted (c : Ctrl) : (prest c).deleted = c.deleted := by
  simp [prest]

@[simp] theorem prest_session (c : Ctrl) : (prest c).session = c.session := by
  simp [prest]

@[simp] theorem consumeParams_accounts (code : String) (c : Ctrl) :
    (consumeParamsWhenNotLoggedIn code c).accounts = c.accounts := by
  unfold consumeParamsWhenNotLoggedIn; split <;> simp

@[simp] theorem consumeParams_records (code : String) (c : Ctrl) :
    (consumeParamsWhenNotLoggedIn code c).records = c.records := by
  unfold consumeParamsWhenNotLoggedIn; split <;> simp

@[simp] theorem consumeParams_flushes (code : String) (c : Ctrl) :
    (consumeParamsWhenNotLoggedIn code c).flushes = c.flushes := by
  unfold consumeParamsWhenNotLoggedIn; split <;> simp

@[simp] theorem consumeParams_created (code : String) (c : Ctrl) :
    (consumeParamsWhenNotLoggedIn code c).created = c.created := by
  unfold consumeParamsWhenNotLoggedIn; split <;> simp

@[simp] theorem consumeParams_deleted (code : String) (c : Ctrl) :
    (consumeParamsWhenNotLoggedIn code c).deleted = c.deleted := by
  unfold consumeParamsWhenNotLoggedIn; split <;> simp

@[simp] theorem consumeParams_session (code : String) (c : Ctrl) :
    (consumeParamsWhenNotLoggedIn code c).session = c.session := by
  unfold consumeParamsWhenNotLoggedIn; split <;> simp

/-- C10: on every execution path of every transaction handler, the ledger
lookups inside `getBalance`/`setBalance` are reached only for an account
id for which `doesAccountExist` returned true earlier on the same path
(and which has not been removed in between), so the partial lookups never
miss and `handleOtherTransactions` is total: it never produces the
`KeyError` marker of the embedding. -/
theorem handleOtherTransactions_never_keyErr (code : String) (c : Ctrl) :
    ∃ out, handleOtherTransactions code c = .ok out := by
  unfold handleOtherTransactions
  by_cases hlog : ¬ c.session.logged_in
  · rw [if_pos hlog]
    by_cases hev : c.session.ever_logged_in
    · rw [if_pos hev]; exact ⟨_, rfl⟩
    · rw [if_neg hev]; exact ⟨_, rfl⟩
  rw [if_neg hlog]
  by_cases hxwithdrawal : code = "withdrawal"
  · rw [if_pos hxwithdrawal]
    obtain ⟨r, cx, h, _⟩ := withdrawalTx_shape c
    exact ⟨_, h⟩
  rw [if_neg hxwithdrawal]
  by_cases hxdeposit : code = "deposit"
  · rw [if_pos hxdeposit]
    obtain ⟨r, cx, h, _⟩ := depositTx_shape c
    exact ⟨_, h⟩
  rw [if_neg hxdeposit]
  by_cases hxtransfer : code = "transfer"
  · rw [if_pos hxtransfer]
    obtain ⟨r, cx, h, _⟩ := transferTx_shape c
    exact ⟨_, h⟩
  rw [if_neg hxtransfer]
  by_cases hxpaybill : code = "paybill"
  · rw [if_pos hxpaybill]
    obtain ⟨r, cx, h, _⟩ := paybillTx_shape c
    exact ⟨_, h⟩
  rw [if_neg hxpaybill]
  by_cases hxcreate : code = "create"
  · rw [if_pos hxcreate]
    obtain ⟨r, cx, h, _⟩ := createTx_shape c
    exact ⟨_, h⟩
  rw [if_neg hxcreate]
  by_cases hxdelete : code = "delete"
  · rw [if_pos hxdelete]
    obtain ⟨r, cx, h, _⟩ := deleteTx_shape c
    exact ⟨_, h⟩
  rw [if_neg hxdelete]
  by_cases hxdisable : code = "disable"
  · rw [if_pos hxdisable]
    obtain ⟨r, cx, h, _⟩ := disableTx_shape c
    exact ⟨_, h⟩
  rw [if_neg hxdisable]
  by_cases hxchangeplan : code = "changeplan"
  · rw [if_pos hxchangeplan]
    obtain ⟨r, h⟩ := changeplanTx_shape c
    exact ⟨_, h⟩
  rw [if_neg hxchangeplan]
  exact ⟨_, rfl⟩

/-- C2: every transaction whose handler returns a rejection (any response
other than one of the type-specific acceptance messages) leaves both the
account ledger mapping and the pending transaction-log record sequence
unchanged: all validation is performed before any mutation is applied. -/
theorem rejected_transaction_no_side_effects (code : String) (c : Ctrl)
    (r : Option String) (c' : Ctrl)
    (h : handleOtherTransactions code c = .ok (r, c'))
    (hr : ∀ m, r = some m → m ∉ acceptanceMessages) :
    c'.accounts = c.accounts ∧ c'.records = c.records := by
  unfold handleOtherTransactions at h
  by_cases hlog : ¬ c.session.logged_in
  · rw [if_pos hlog] at h
    by_cases hev : c.session.ever_logged_in
    · rw [if_pos hev] at h
      simp only [Except.ok.injEq, Prod.mk.injEq] at h
      obtain ⟨h1, h2⟩ := h
      subst h2; simp
    · rw [if_neg hev] at h
      simp only [Except.ok.injEq, Prod.mk.injEq] at h
      obtain ⟨h1, h2⟩ := h
      subst h2; simp
  rw [if_neg hlog] at h
  by_cases hxwithdrawal : code = "withdrawal"
  · rw [if_pos hxwithdrawal] at h
    obtain ⟨r0, c0, hs, hor⟩ := withdrawalTx_shape c
    rw [hs] at h
    simp only [Except.ok.injEq, Prod.mk.injEq] at h
    obtain ⟨h1, h2⟩ := h
    subst h1; subst h2
    rcases hor with ⟨_, hc0⟩ | ⟨hacc, _⟩
    · subst hc0; simp
    · exact absurd (by rw [hacc]; decide) (hr r0 rfl)
  rw [if_neg hxwithdrawal] at h
  by_cases hxdeposit : code = "deposit"
  · rw [if_pos hxdeposit] at h
    obtain ⟨r0, c0, hs, hor⟩ := depositTx_shape c
    rw [hs] at h
    simp only [Except.ok.injEq, Prod.mk.injEq] at h
    obtain ⟨h1, h2⟩ := h
    subst h1; subst h2
    rcases hor with ⟨_, hc0⟩ | ⟨hacc, _⟩
    · subst hc0; simp
    · exact absurd (by rw [hacc]; decide) (hr r0 rfl)
  rw [if_neg hxdeposit] at h
  by_cases hxtransfer : code = "transfer"
  · rw [if_pos hxtransfer] at h
    obtain ⟨r0, c0, hs, hor⟩ := transferTx_shape c
    rw [hs] at h
    simp only [Except.ok.injEq, Prod.mk.injEq] at h
    obtain ⟨h1, h2⟩ := h
    subst h1; subst h2
    rcases hor with ⟨_, hc0⟩ | ⟨hacc, _⟩
    · subst hc0; simp
    · exact absurd (by rw [hacc]; decide) (hr r0 rfl)
  rw [if_neg hxtransfer] at h
  by_cases hxpaybill : code = "paybill"
  · rw [if_pos hxpaybill] at h
    obtain ⟨r0, c0, hs, hor⟩ := paybillTx_shape c
    rw [hs] at h
    simp only [Except.ok.injEq, Prod.mk.injEq] at h
    obtain ⟨h1, h2⟩ := h
    subst h1; subst h2
    rcases hor with ⟨_, hc0⟩ | ⟨hacc, _⟩
    · subst hc0; simp
    · exact absurd (by rw [hacc]; decide) (hr r0 rfl)
  rw [if_neg hxpaybill] at h
  by_cases hxcreate : code = "create"
  · rw [if_pos hxcreate] at h
    obtain ⟨r0, c0, hs, hor⟩ := createTx_shape c
    rw [hs] at h
    simp only [Except.ok.injEq, Prod.mk.injEq] at h
    obtain ⟨h1, h2⟩ := h
    subst h1; subst h2
    rcases hor with ⟨_, hc0⟩ | ⟨hacc, _⟩
    · subst hc0; simp
    · exact absurd (by rw [hacc]; decide) (hr r0 rfl)
  rw [if_neg hxcreate] at h
  by_cases hxdelete : code = "delete"
  · rw [if_pos hxdelete] at h
    obtain ⟨r0, c0, hs, hor⟩ := deleteTx_shape c
    rw [hs] at h
    simp only [Except.ok.injEq, Prod.mk.injEq] at h
    obtain ⟨h1, h2⟩ := h
    subst h1; subst h2
    rcases hor with ⟨_, hc0⟩ | ⟨hacc, _⟩
    · subst hc0; simp
    · exact absurd (by rw [hacc]; decide) (hr r0 rfl)
  rw [if_neg hxdelete] at h
  by_cases hxdisable : code = "disable"
  · rw [if_pos hxdisable] at h
    obtain ⟨r0, c0, hs, hor⟩ := disableTx_shape c
    rw [hs] at h
    simp only [Except.ok.injEq, Prod.mk.injEq] at h
    obtain ⟨h1, h2⟩ := h
    subst h1; subst h2
    rcases hor with ⟨_, hc0⟩ | ⟨hacc, _⟩
    · subst hc0; simp
    · exact absurd (by rw [hacc]; decide) (hr r0 rfl)
  rw [if_neg hxdisable] at h
  by_cases hxchangeplan : code = "changeplan"
  · rw [if_pos hxchangeplan] at h
    obtain ⟨r0, hs⟩ := changeplanTx_shape c
    rw [hs] at h
    simp only [Except.ok.injEq, Prod.mk.injEq] at h
    obtain ⟨h1, h2⟩ := h
    subst h2; simp
  rw [if_neg hxchangeplan] at h
  simp only [Except.ok.injEq, Prod.mk.injEq] at h
  obtain ⟨h1, h2⟩ := h
  subst h2
  exact ⟨rfl, rfl⟩

/-- Witness for C2 at a concrete insufficient-funds withdrawal. -/
theorem rejected_transaction_no_side_effects_witness :
    handleOtherTransactions "withdrawal" c2wState =
      .ok (some "ERROR: Insufficient funds.", c2wPost) ∧
    "ERROR: Insufficient funds." ∉ acceptanceMessages ∧
    (c2wPost.accounts = c2wState.accounts ∧ c2wPost.records = c2wState.records) :=
  ⟨by decide, by decide,
    rejected_transaction_no_side_effects "withdrawal" c2wState
      (some "ERROR: Insufficient funds.") c2wPost (by decide)
      (fun m hm => by injection hm with h2; subst h2; decide)⟩

/-- Reading a stored balance exposes the stored record. -/
theorem getBalance?_eq_some (a : Ledger) (k : String) (b : ℚ)
    (h : getBalance? a k = some b) : ∃ v, dictGet a k = some v ∧ v.balance = b := by
  unfold getBalance? at h
  rcases hd : dictGet a k with _ | v
  · rw [hd] at h; cases h
  · rw [hd] at h
    injection h with h2
    exact ⟨v, rfl, h2⟩

/-- A `setBalance?` write with a non-negative value preserves ledger-wide
balance non-negativity. -/
theorem nonneg_preserved_setBalance? (a a' : Ledger) (k : String) (b : ℚ)
    (hset : setBalance? a k b = some a') (hb : 0 ≤ b)
    (hinv : ∀ k' v, dictGet a k' = some v → 0 ≤ v.balance) :
    ∀ k' v, dictGet a' k' = some v → 0 ≤ v.balance := by
  intro k' v hv
  rw [dictGet_setBalance? a a' k b hset k'] at hv
  by_cases hk : k = k'
  · rw [if_pos hk] at hv
    rcases hd : dictGet a k' with _ | w
    · rw [hd] at hv; cases hv
    · rw [hd] at hv
      injection hv with h2
      rw [← h2]
      exact hb
  · rw [if_neg hk] at hv
    exact hinv k' v hv

/-- In a one-account ledger with a non-negative balance every stored
balance is non-negative. -/
theorem nonneg_ledger_singleton (k0 : String) (a : Account) (h : 0 ≤ a.balance) :
    ∀ k v, dictGet [(k0, a)] k = some v → 0 ≤ v.balance := by
  intro k v hv
  unfold dictGet at hv
  split at hv
  · injection hv with h2
    rw [← h2]
    exact h
  · exact absurd hv (by simp [dictGet])

/-- C8 counterexample: with a ledger at the maximum balance 99999.00, a
deposit of 1.00 is accepted and leaves the balance at 100000.00, strictly
above `MAX_BALANCE`; the claimed upper-bound invariant fails on the code. -/
theorem deposit_exceeds_max_balance_counterexample :
    (handleOtherTransactions "deposit" c8xState).map
        (fun rc => (rc.1, getBalance? rc.2.accounts "10001")) =
      .ok (some "Deposit accepted.", some 100000) ∧
    MAX_BALANCE < 100000 := by
  constructor
  · decide
  · decide

/-- C8 (amended): successful withdrawal, deposit, transfer and paybill
transactions keep every ledger balance non-negative (whenever all balances
start non-negative), and a create whose parsed initial balance exceeds
99999.00 is rejected with no mutation; however deposit and transfer apply
no upper bound, so a balance may legitimately exceed `MAX_BALANCE` after a
successful deposit, and create does not reject negative initial
balances. -/
theorem money_transactions_preserve_nonneg_and_create_bounded :
    (∀ code c r c',
      (code = "withdrawal" ∨ code = "deposit" ∨ code = "transfer" ∨ code = "paybill") →
      (∀ k v, dictGet c.accounts k = some v → 0 ≤ v.balance) →
      handleOtherTransactions code c = .ok (r, c') →
      (∀ k v, dictGet c'.accounts k = some v → 0 ≤ v.balance)) ∧
    (∀ c balance, c.session.logged_in = true → c.session.admin_mode = true →
      pr1 c ≠ "" → (pr1 c).length ≤ MAX_ACCOUNT_NAME_LEN →
      parseDecimal (pr2 c) = some balance → MAX_BALANCE < balance →
      handleOtherTransactions "create" c =
        .ok (some "ERROR: Initial balance exceeds maximum.", prest c)) := by
  constructor
  · intro code c r c' hcode hinv h
    unfold handleOtherTransactions at h
    by_cases hlog : ¬ c.session.logged_in
    · rw [if_pos hlog] at h
      by_cases hev : c.session.ever_logged_in
      · rw [if_pos hev] at h
        simp only [Except.ok.injEq, Prod.mk.injEq] at h
        obtain ⟨h1, h2⟩ := h
        subst h2
        intro k v hv
        exact hinv k v (by simpa using hv)
      · rw [if_neg hev] at h
        simp only [Except.ok.injEq, Prod.mk.injEq] at h
        obtain ⟨h1, h2⟩ := h
        subst h2
        intro k v hv
        exact hinv k v (by simpa using hv)
    rw [if_neg hlog] at h
    rcases hcode with hc | hc | hc | hc
    · subst hc
      rw [if_pos rfl] at h
      obtain ⟨r0, c0, hs, hor⟩ := withdrawalTx_shape c
      rw [hs] at h
      simp only [Except.ok.injEq, Prod.mk.injEq] at h
      obtain ⟨h1, h2⟩ := h
      subst h2
      rcases hor with ⟨_, hc0⟩ | ⟨_, amount, bal, accounts', hp, hnn, hg, hle, hset, hc0⟩
      · subst hc0
        intro k v hv
        exact hinv k v (by simpa using hv)
      · subst hc0
        intro k v hv
        exact nonneg_preserved_setBalance? c.accounts accounts' (mr1 c) (bal - amount)
          hset (sub_nonneg.mpr hle) hinv k v hv
    · subst hc
      rw [if_neg (by decide), if_pos rfl] at h
      obtain ⟨r0, c0, hs, hor⟩ := depositTx_shape c
      rw [hs] at h
      simp only [Except.ok.injEq, Prod.mk.injEq] at h
      obtain ⟨h1, h2⟩ := h
      subst h2
      rcases hor with ⟨_, hc0⟩ | ⟨_, amount, bal, accounts', hp, hnn, hg, hset, hc0⟩
      · subst hc0
        intro k v hv
        exact hinv k v (by simpa using hv)
      · subst hc0
        obtain ⟨w, hw, hwb⟩ := getBalance?_eq_some c.accounts (mr1 c) bal hg
        have hbal : 0 ≤ bal := hwb ▸ hinv (mr1 c) w hw
        intro k v hv
        exact nonneg_preserved_setBalance? c.accounts accounts' (mr1 c) (bal + amount)
          hset (add_nonneg hbal hnn) hinv k v hv
    · subst hc
      rw [if_neg (by decide), if_neg (by decide), if_pos rfl] at h
      obtain ⟨r0, c0, hs, hor⟩ := transferTx_shape c
      rw [hs] at h
      simp only [Except.ok.injEq, Prod.mk.injEq] at h
      obtain ⟨h1, h2⟩ := h
      subst h2
      rcases hor with ⟨_, hc0⟩ |
        ⟨_, amount, fromBal, a1, toBal, a2, hp, hnn, hg, hle, hset1, hg2, hset2, hc0⟩
      · subst hc0
        intro k v hv
        exact hinv k v (by simpa using hv)
      · subst hc0
        have hinv1 : ∀ k v, dictGet a1 k = some v → 0 ≤ v.balance :=
          nonneg_preserved_setBalance? c.accounts a1 (mr1 c) (fromBal - amount)
            hset1 (sub_nonneg.mpr hle) hinv
        obtain ⟨w, hw, hwb⟩ := getBalance?_eq_some a1 (mr2 c) toBal hg2
        have htb : 0 ≤ toBal := hwb ▸ hinv1 (mr2 c) w hw
        intro k v hv
        exact nonneg_preserved_setBalance? a1 a2 (mr2 c) (toBal + amount)
          hset2 (add_nonneg htb hnn) hinv1 k v hv
    · subst hc
      rw [if_neg (by decide), if_neg (by decide), if_neg (by decide), if_pos rfl] at h
      obtain ⟨r0, c0, hs, hor⟩ := paybillTx_shape c
      rw [hs] at h
      simp only [Except.ok.injEq, Prod.mk.injEq] at h
      obtain ⟨h1, h2⟩ := h
      subst h2
      rcases hor with ⟨_, hc0⟩ | ⟨_, amount, bal, accounts', hp, hnn, hg, hle, hset, hc0⟩
      · subst hc0
        intro k v hv
        exact hinv k v (by simpa using hv)
      · subst hc0
        intro k v hv
        exact nonneg_preserved_setBalance? c.accounts accounts' (mr1 c) (bal - amount)
          hset (sub_nonneg.mpr hle) hinv k v hv
  · intro c balance hl ha hname hlen hp hM
    have hp2 : pr2 c ≠ "" := by
      intro he
      rw [he] at hp
      rw [(by decide : parseDecimal "" = none)] at hp
      cases hp
    have hname' : (readTrim c).1 ≠ "" := hname
    have hp2' : (readTrim (readTrim c).2).1 ≠ "" := hp2
    have hlen' : ¬ MAX_ACCOUNT_NAME_LEN < (readTrim c).1.length := not_lt.mpr hlen
    have hp' : parseDecimal ((readTrim (readTrim c).2).1) = some balance := hp
    unfold handleOtherTransactions
    rw [if_neg (not_not_intro hl), if_neg (by decide), if_neg (by decide),
      if_neg (by decide), if_neg (by decide), if_pos rfl]
    unfold createTx
    rw [if_neg (not_not_intro ha), if_neg (by simp [hname', hp2']), if_neg hlen']
    simp only [hp']
    rw [if_pos hM]
    rfl

/-- Witness for the amended C8: a concrete accepted deposit preserving
non-negativity, and a concrete over-maximum create being rejected. -/
theorem money_transactions_preserve_nonneg_witness :
    ((0:ℚ) ≤ 50 ∧
      handleOtherTransactions "deposit" c8wState = .ok (some "Deposit accepted.", c8wPost) ∧
      (∀ k v, dictGet c8wPost.accounts k = some v → 0 ≤ v.balance)) ∧
    (MAX_BALANCE < 100000 ∧
      handleOtherTransactions "create" c8w2State =
        .ok (some "ERROR: Initial balance exceeds maximum.", prest c8w2State)) :=
  ⟨⟨by decide, by decide,
    money_transactions_preserve_nonneg_and_create_bounded.1 "deposit" c8wState
      (some "Deposit accepted.") c8wPost (Or.inr (Or.inl rfl))
      (nonneg_ledger_singleton "10001" ⟨"Alice", "A", 50⟩ (by decide)) (by decide)⟩,
   ⟨by decide,
    money_transactions_preserve_nonneg_and_create_bounded.2 c8w2State 100000 rfl rfl
      (by decide) (by decide) (by decide) (by decide)⟩⟩

/-- C3: in a logged-in standard-mode session, once a withdrawal or
transfer reaches the amount checks, the funds-sufficiency check is applied
before the standard-mode ceiling (500.00 for withdrawal, 1000.00 for
transfer), while paybill applies the 2000.00 ceiling before the funds
check; the response is exactly the first failing check's message, else the
acceptance. -/
theorem funds_limit_order :
    (∀ c amount bal, c.session.logged_in = true → c.session.admin_mode = false →
      mr1 c ≠ "" → mr2 c ≠ "" → (mr1 c).length = 5 →
      (mr1 c).data.all Char.isDigit = true →
      mr1 c ∉ c.deleted → mr1 c ∉ c.created →
      isAccountDisabled c.accounts (mr1 c) = false →
      isAccountOwnedBy c.accounts (mr1 c) c.session.account_holder_name = true →
      parseDecimal (mr2 c) = some amount → ¬ amount < 0 →
      getBalance? c.accounts (mr1 c) = some bal →
      ∃ c', handleOtherTransactions "withdrawal" c =
        .ok (some (if bal < amount then "ERROR: Insufficient funds."
          else if WITHDRAWAL_LIMIT_STANDARD < amount then
            "ERROR: Withdrawal exceeds session limit."
          else "Withdrawal accepted."), c')) ∧
    (∀ c amount fromBal, c.session.logged_in = true → c.session.admin_mode = false →
      mr1 c ≠ "" → mr2 c ≠ "" → mr3 c ≠ "" →
      mr1 c ∉ c.deleted → mr2 c ∉ c.deleted →
      mr1 c ∉ c.created → mr2 c ∉ c.created →
      doesAccountExist c.accounts (mr2 c) = true →
      isAccountDisabled c.accounts (mr1 c) = false →
      isAccountDisabled c.accounts (mr2 c) = false →
      isAccountOwnedBy c.accounts (mr1 c) c.session.account_holder_name = true →
      parseDecimal (mr3 c) = some amount → ¬ amount < 0 →
      getBalance? c.accounts (mr1 c) = some fromBal →
      ∃ c', handleOtherTransactions "transfer" c =
        .ok (some (if fromBal < amount then "ERROR: Insufficient funds."
          else if TRANSFER_LIMIT_STANDARD < amount then
            "ERROR: Transfer exceeds session limit."
          else "Transfer accepted."), c')) ∧
    (∀ c amount bal, c.session.logged_in = true → c.session.admin_mode = false →
      mr1 c ≠ "" → mr2 c ≠ "" → mr3 c ≠ "" →
      mr1 c ∉ c.deleted → mr1 c ∉ c.created →
      isAccountDisabled c.accounts (mr1 c) = false →
      isAccountOwnedBy c.accounts (mr1 c) c.session.account_holder_name = true →
      mr2 c ∈ VALID_BILL_COMPANIES →
      parseDecimal (mr3 c) = some amount → ¬ amount < 0 →
      getBalance? c.accounts (mr1 c) = some bal →
      ∃ c', handleOtherTransactions "paybill" c =
        .ok (some (if PAYBILL_LIMIT_STANDARD < amount then
            "ERROR: Paybill exceeds session limit."
          else if bal < amount then "ERROR: Insufficient funds."
          else "Bill payment accepted."), c')) := by
  refine ⟨?_, ?_, ?_⟩
  · intro c amount bal hl ha h1 h2 h3 h4 h5 h6 h7 h8 hp hneg hg
    obtain ⟨v, hd, hvb⟩ := getBalance?_eq_some _ _ _ hg
    have hex : doesAccountExist c.accounts ((readTrim (adminSkip c)).1) = true := by
      unfold doesAccountExist; rw [show dictGet c.accounts ((readTrim (adminSkip c)).1) =
        some v from hd]; rfl
    have h1' : (readTrim (adminSkip c)).1 ≠ "" := h1
    have h2' : (readTrim (readTrim (adminSkip c)).2).1 ≠ "" := h2
    have h3' : (readTrim (adminSkip c)).1.length = 5 := h3
    have h4' : (readTrim (adminSkip c)).1.data.all Char.isDigit = true := h4
    have h5' : (readTrim (adminSkip c)).1 ∉ c.deleted := h5
    have h6' : (readTrim (adminSkip c)).1 ∉ c.created := h6
    have h7' : isAccountDisabled c.accounts ((readTrim (adminSkip c)).1) = false := h7
    have h8' : isAccountOwnedBy c.accounts ((readTrim (adminSkip c)).1)
        c.session.account_holder_name = true := h8
    have hp' : parseDecimal ((readTrim (readTrim (adminSkip c)).2).1) = some amount := hp
    have hg' : getBalance? c.accounts ((readTrim (adminSkip c)).1) = some bal := hg
    unfold handleOtherTransactions
    rw [if_neg (not_not_intro hl), if_pos rfl]
    unfold withdrawalTx
    rw [if_neg (by simp [h1', h2']), if_neg (by simp [h3', h4']), if_neg h5', if_neg h6',
      if_neg (by simp [hex]), if_neg (by simp [h7']), if_neg (by simp [h8'])]
    simp only [hp']
    rw [if_neg hneg]
    simp only [hg']
    by_cases hfund : bal < amount
    · rw [if_pos hfund, if_pos hfund]; exact ⟨_, rfl⟩
    rw [if_neg hfund, if_neg hfund]
    by_cases hlim : WITHDRAWAL_LIMIT_STANDARD < amount
    · rw [if_pos (show ¬ c.session.admin_mode = true ∧ WITHDRAWAL_LIMIT_STANDARD < amount
        from ⟨by simp [ha], hlim⟩), if_pos hlim]
      exact ⟨_, rfl⟩
    rw [if_neg (fun hand => hlim hand.2), if_neg hlim]
    obtain ⟨accounts', hset⟩ := setBalance?_isSome_of_exists c.accounts _ (bal - amount) hex
    simp only [hset]
    exact ⟨_, rfl⟩
  · intro c amount fromBal hl ha h1 h2 h2b h5 h5d h6 h6c hex2 h7 h7d h8 hp hneg hg
    obtain ⟨v, hd, hvb⟩ := getBalance?_eq_some _ _ _ hg
    have hex : doesAccountExist c.accounts ((readTrim (adminSkip c)).1) = true := by
      unfold doesAccountExist; rw [show dictGet c.accounts ((readTrim (adminSkip c)).1) =
        some v from hd]; rfl
    have h1' : (readTrim (adminSkip c)).1 ≠ "" := h1
    have h2' : (readTrim (readTrim (adminSkip c)).2).1 ≠ "" := h2
    have h2b' : (readTrim (readTrim (readTrim (adminSkip c)).2).2).1 ≠ "" := h2b
    have h5' : (readTrim (adminSkip c)).1 ∉ c.deleted := h5
    have h5d' : (readTrim (readTrim (adminSkip c)).2).1 ∉ c.deleted := h5d
    have h6' : (readTrim (adminSkip c)).1 ∉ c.created := h6
    have h6c' : (readTrim (readTrim (adminSkip c)).2).1 ∉ c.created := h6c
    have hex2' : doesAccountExist c.accounts ((readTrim (readTrim (adminSkip c)).2).1) =
        true := hex2
    have h7' : isAccountDisabled c.accounts ((readTrim (adminSkip c)).1) = false := h7
    have h7d' : isAccountDisabled c.accounts ((readTrim (readTrim (adminSkip c)).2).1) =
        false := h7d
    have h8' : isAccountOwnedBy c.accounts ((readTrim (adminSkip c)).1)
        c.session.account_holder_name = true := h8
    have hp' : parseDecimal ((readTrim (readTrim (readTrim (adminSkip c)).2).2).1) =
        some amount := hp
    have hg' : getBalance? c.accounts ((readTrim (adminSkip c)).1) = some fromBal := hg
    unfold handleOtherTransactions
    rw [if_neg (not_not_intro hl), if_neg (by decide), if_neg (by decide), if_pos rfl]
    unfold transferTx
    rw [if_neg (by simp [h1', h2', h2b']), if_neg (by simp [h5', h5d']),
      if_neg (by simp [h6', h6c']), if_neg (by simp [hex]), if_neg (by simp [hex2']),
      if_neg (by simp [h7', h7d']), if_neg (by simp [h8'])]
    simp only [hp']
    rw [if_neg hneg]
    simp only [hg']
    by_cases hfund : fromBal < amount
    · rw [if_pos hfund, if_pos hfund]; exact ⟨_, rfl⟩
    rw [if_neg hfund, if_neg hfund]
    by_cases hlim : TRANSFER_LIMIT_STANDARD < amount
    · rw [if_pos (show ¬ c.session.admin_mode = true ∧ TRANSFER_LIMIT_STANDARD < amount
        from ⟨by simp [ha], hlim⟩), if_pos hlim]
      exact ⟨_, rfl⟩
    rw [if_neg (fun hand => hlim hand.2), if_neg hlim]
    obtain ⟨a1, hset1⟩ := setBalance?_isSome_of_exists c.accounts _ (fromBal - amount) hex
    simp only [hset1]
    have hTo : doesAccountExist a1 ((readTrim (readTrim (adminSkip c)).2).1) = true := by
      unfold doesAccountExist
      rw [dictGet_isSome_setBalance? c.accounts a1 _ _ _ hset1]
      exact hex2'
    obtain ⟨toBal, hg2⟩ := getBalance?_isSome_of_exists a1 _ hTo
    simp only [hg2]
    obtain ⟨a2, hset2⟩ := setBalance?_isSome_of_exists a1 _ (toBal + amount) hTo
    simp only [hset2]
    exact ⟨_, rfl⟩
  · intro c amount bal hl ha h1 h2 h2b h5 h6 h7 h8 hcomp hp hneg hg
    obtain ⟨v, hd, hvb⟩ := getBalance?_eq_some _ _ _ hg
    have hex : doesAccountExist c.accounts ((readTrim (adminSkip c)).1) = true := by
      unfold doesAccountExist; rw [show dictGet c.accounts ((readTrim (adminSkip c)).1) =
        some v from hd]; rfl
    have h1' : (readTrim (adminSkip c)).1 ≠ "" := h1
    have h2' : (readTrim (readTrim (adminSkip c)).2).1 ≠ "" := h2
    have h2b' : (readTrim (readTrim (readTrim (adminSkip c)).2).2).1 ≠ "" := h2b
    have h5' : (readTrim (adminSkip c)).1 ∉ c.deleted := h5
    have h6' : (readTrim (adminSkip c)).1 ∉ c.created := h6
    have h7' : isAccountDisabled c.accounts ((readTrim (adminSkip c)).1) = false := h7
    have h8' : isAccountOwnedBy c.accounts ((readTrim (adminSkip c)).1)
        c.session.account_holder_name = true := h8
    have hcomp' : (readTrim (readTrim (adminSkip c)).2).1 ∈ VALID_BILL_COMPANIES := hcomp
    have hp' : parseDecimal ((readTrim (readTrim (readTrim (adminSkip c)).2).2).1) =
        some amount := hp
    have hg' : getBalance? c.accounts ((readTrim (adminSkip c)).1) = some bal := hg
    unfold handleOtherTransactions
    rw [if_neg (not_not_intro hl), if_neg (by decide), if_neg (by decide),
      if_neg (by decide), if_pos rfl]
    unfold paybillTx
    rw [if_neg (by simp [h1', h2', h2b']), if_neg h5', if_neg h6',
      if_neg (by simp [hex]), if_neg (by simp [h7']), if_neg (by simp [h8']),
      if_neg (not_not_intro hcomp')]
    simp only [hp']
    rw [if_neg hneg]
    by_cases hlim : PAYBILL_LIMIT_STANDARD < amount
    · rw [if_pos (show ¬ c.session.admin_mode = true ∧ PAYBILL_LIMIT_STANDARD < amount
        from ⟨by simp [ha], hlim⟩), if_pos hlim]
      exact ⟨_, rfl⟩
    rw [if_neg (fun hand => hlim hand.2), if_neg hlim]
    simp only [hg']
    by_cases hfund : bal < amount
    · rw [if_pos hfund, if_pos hfund]; exact ⟨_, rfl⟩
    rw [if_neg hfund, if_neg hfund]
    obtain ⟨accounts', hset⟩ := setBalance?_isSome_of_exists c.accounts _ (bal - amount) hex
    simp only [hset]
    exact ⟨_, rfl⟩

/-- Witness for C3: a withdrawal of 600.00 in standard mode fails with the
session-limit message against a balance of 1000.00 and with the
insufficient-funds message against a balance of 500.00. -/
theorem funds_limit_order_witness :
    (∃ c', handleOtherTransactions "withdrawal" c3wState =
      .ok (some "ERROR: Withdrawal exceeds session limit.", c')) ∧
    (∃ c', handleOtherTransactions "withdrawal" c3wState2 =
      .ok (some "ERROR: Insufficient funds.", c')) := by
  constructor
  · obtain ⟨c', hc⟩ := funds_limit_order.1 c3wState 600 1000 rfl rfl (by decide) (by decide)
      (by decide) (by decide) (by decide) (by decide) (by decide) (by decide) (by decide)
      (by decide) (by decide)
    exact ⟨c', by rw [hc]; rfl⟩
  · obtain ⟨c', hc⟩ := funds_limit_order.1 c3wState2 600 500 rfl rfl (by decide) (by decide)
      (by decide) (by decide) (by decide) (by decide) (by decide) (by decide) (by decide)
      (by decide) (by decide)
    exact ⟨c', by rw [hc]; rfl⟩

/-- C7: for a withdrawal, transfer or paybill that reaches the
funds-sufficiency check, a source balance exactly equal to the requested
amount passes the check (the rejection condition is the strict
`balance < amount`): the transaction is accepted, and for withdrawal and
paybill the source balance is left at exactly zero.  (A deposit never
reaches a funds check.) -/
theorem funds_check_strict_boundary :
    (∀ c amount, c.session.logged_in = true →
      mr1 c ≠ "" → mr2 c ≠ "" → (mr1 c).length = 5 →
      (mr1 c).data.all Char.isDigit = true →
      mr1 c ∉ c.deleted → mr1 c ∉ c.created →
      isAccountDisabled c.accounts (mr1 c) = false →
      (c.session.admin_mode = true ∨
        isAccountOwnedBy c.accounts (mr1 c) c.session.account_holder_name = true) →
      parseDecimal (mr2 c) = some amount → ¬ amount < 0 →
      getBalance? c.accounts (mr1 c) = some amount →
      (c.session.admin_mode = true ∨ amount ≤ WITHDRAWAL_LIMIT_STANDARD) →
      ∃ c', handleOtherTransactions "withdrawal" c = .ok (some "Withdrawal accepted.", c') ∧
        getBalance? c'.accounts (mr1 c) = some 0) ∧
    (∀ c amount, c.session.logged_in = true →
      mr1 c ≠ "" → mr2 c ≠ "" → mr3 c ≠ "" →
      mr1 c ∉ c.deleted → mr2 c ∉ c.deleted →
      mr1 c ∉ c.created → mr2 c ∉ c.created →
      doesAccountExist c.accounts (mr2 c) = true →
      isAccountDisabled c.accounts (mr1 c) = false →
      isAccountDisabled c.accounts (mr2 c) = false →
      (c.session.admin_mode = true ∨
        isAccountOwnedBy c.accounts (mr1 c) c.session.account_holder_name = true) →
      parseDecimal (mr3 c) = some amount → ¬ amount < 0 →
      getBalance? c.accounts (mr1 c) = some amount →
      (c.session.admin_mode = true ∨ amount ≤ TRANSFER_LIMIT_STANDARD) →
      ∃ c', handleOtherTransactions "transfer" c = .ok (some "Transfer accepted.", c')) ∧
    (∀ c amount, c.session.logged_in = true →
      mr1 c ≠ "" → mr2 c ≠ "" → mr3 c ≠ "" →
      mr1 c ∉ c.deleted → mr1 c ∉ c.created →
      isAccountDisabled c.accounts (mr1 c) = false →
      (c.session.admin_mode = true ∨
        isAccountOwnedBy c.accounts (mr1 c) c.session.account_holder_name = true) →
      mr2 c ∈ VALID_BILL_COMPANIES →
      parseDecimal (mr3 c) = some amount → ¬ amount < 0 →
      getBalance? c.accounts (mr1 c) = some amount →
      (c.session.admin_mode = true ∨ amount ≤ PAYBILL_LIMIT_STANDARD) →
      ∃ c', handleOtherTransactions "paybill" c = .ok (some "Bill payment accepted.", c') ∧
        getBalance? c'.accounts (mr1 c) = some 0) := by
  refine ⟨?_, ?_, ?_⟩
  · intro c amount hl h1 h2 h3 h4 h5 h6 h7 h8 hp hneg hg hlim
    obtain ⟨v, hd, hvb⟩ := getBalance?_eq_some _ _ _ hg
    have hex : doesAccountExist c.accounts ((readTrim (adminSkip c)).1) = true := by
      unfold doesAccountExist; rw [show dictGet c.accounts ((readTrim (adminSkip c)).1) =
        some v from hd]; rfl
    have h1' : (readTrim (adminSkip c)).1 ≠ "" := h1
    have h2' : (readTrim (readTrim (adminSkip c)).2).1 ≠ "" := h2
    have h3' : (readTrim (adminSkip c)).1.length = 5 := h3
    have h4' : (readTrim (adminSkip c)).1.data.all Char.isDigit = true := h4
    have h5' : (readTrim (adminSkip c)).1 ∉ c.deleted := h5
    have h6' : (readTrim (adminSkip c)).1 ∉ c.created := h6
    have h7' : isAccountDisabled c.accounts ((readTrim (adminSkip c)).1) = false := h7
    have h8' : ¬ (¬ c.session.admin_mode = true ∧
        ¬ isAccountOwnedBy c.accounts ((readTrim (adminSkip c)).1)
          c.session.account_holder_name = true) := by
      rcases h8 with ha | how
      · exact fun hand => hand.1 ha
      · exact fun hand => hand.2 how
    have hlim' : ¬ (¬ c.session.admin_mode = true ∧ WITHDRAWAL_LIMIT_STANDARD < amount) := by
      rcases hlim with ha | hle
      · exact fun hand => hand.1 ha
      · exact fun hand => absurd hand.2 (not_lt.mpr hle)
    have hp' : parseDecimal ((readTrim (readTrim (adminSkip c)).2).1) = some amount := hp
    have hg' : getBalance? c.accounts ((readTrim (adminSkip c)).1) = some amount := hg
    unfold handleOtherTransactions
    rw [if_neg (not_not_intro hl), if_pos rfl]
    unfold withdrawalTx
    rw [if_neg (by simp [h1', h2']), if_neg (by simp [h3', h4']), if_neg h5', if_neg h6',
      if_neg (by simp [hex]), if_neg (by simp [h7']), if_neg h8']
    simp only [hp']
    rw [if_neg hneg]
    simp only [hg']
    rw [if_neg (lt_irrefl amount), if_neg hlim']
    obtain ⟨accounts', hset⟩ :=
      setBalance?_isSome_of_exists c.accounts _ (amount - amount) hex
    simp only [hset]
    refine ⟨_, rfl, ?_⟩
    have hres : getBalance? accounts' ((readTrim (adminSkip c)).1) =
        some (amount - amount) := by
      unfold getBalance?
      rw [dictGet_setBalance? c.accounts accounts' _ _ hset _, if_pos rfl,
        show dictGet c.accounts ((readTrim (adminSkip c)).1) = some v from hd]
      rfl
    rw [sub_self] at hres
    exact hres
  · intro c amount hl h1 h2 h2b h5 h5d h6 h6c hex2 h7 h7d h8 hp hneg hg hlim
    obtain ⟨v, hd, hvb⟩ := getBalance?_eq_some _ _ _ hg
    have hex : doesAccountExist c.accounts ((readTrim (adminSkip c)).1) = true := by
      unfold doesAccountExist; rw [show dictGet c.accounts ((readTrim (adminSkip c)).1) =
        some v from hd]; rfl
    have h1' : (readTrim (adminSkip c)).1 ≠ "" := h1
    have h2' : (readTrim (readTrim (adminSkip c)).2).1 ≠ "" := h2
    have h2b' : (readTrim (readTrim (readTrim (adminSkip c)).2).2).1 ≠ "" := h2b
    have h5' : (readTrim (adminSkip c)).1 ∉ c.deleted := h5
    have h5d' : (readTrim (readTrim (adminSkip c)).2).1 ∉ c.deleted := h5d
    have h6' : (readTrim (adminSkip c)).1 ∉ c.created := h6
    have h6c' : (readTrim (readTrim (adminSkip c)).2).1 ∉ c.created := h6c
    have hex2' : doesAccountExist c.accounts ((readTrim (readTrim (adminSkip c)).2).1) =
        true := hex2
    have h7' : isAccountDisabled c.accounts ((readTrim (adminSkip c)).1) = false := h7
    have h7d' : isAccountDisabled c.accounts ((readTrim (readTrim (adminSkip c)).2).1) =
        false := h7d
    have h8' : ¬ (¬ c.session.admin_mode = true ∧
        ¬ isAccountOwnedBy c.accounts ((readTrim (adminSkip c)).1)
          c.session.account_holder_name = true) := by
      rcases h8 with ha | how
      · exact fun hand => hand.1 ha
      · exact fun hand => hand.2 how
    have hlim' : ¬ (¬ c.session.admin_mode = true ∧ TRANSFER_LIMIT_STANDARD < amount) := by
      rcases hlim with ha | hle
      · exact fun hand => hand.1 ha
      · exact fun hand => absurd hand.2 (not_lt.mpr hle)
    have hp' : parseDecimal ((readTrim (readTrim (readTrim (adminSkip c)).2).2).1) =
        some amount := hp
    have hg' : getBalance? c.accounts ((readTrim (adminSkip c)).1) = some amount := hg
    unfold handleOtherTransactions
    rw [if_neg (not_not_intro hl), if_neg (by decide), if_neg (by decide), if_pos rfl]
    unfold transferTx
    rw [if_neg (by simp [h1', h2', h2b']), if_neg (by simp [h5', h5d']),
      if_neg (by simp [h6', h6c']), if_neg (by simp [hex]), if_neg (by simp [hex2']),
      if_neg (by simp [h7', h7d']), if_neg h8']
    simp only [hp']
    rw [if_neg hneg]
    simp only [hg']
    rw [if_neg (lt_irrefl amount), if_neg hlim']
    obtain ⟨a1, hset1⟩ :=
      setBalance?_isSome_of_exists c.accounts _ (amount - amount) hex
    simp only [hset1]
    have hTo : doesAccountExist a1 ((readTrim (readTrim (adminSkip c)).2).1) = true := by
      unfold doesAccountExist
      rw [dictGet_isSome_setBalance? c.accounts a1 _ _ _ hset1]
      exact hex2'
    obtain ⟨toBal, hg2⟩ := getBalance?_isSome_of_exists a1 _ hTo
    simp only [hg2]
    obtain ⟨a2, hset2⟩ := setBalance?_isSome_of_exists a1 _ (toBal + amount) hTo
    simp only [hset2]
    exact ⟨_, rfl⟩
  · intro c amount hl h1 h2 h2b h5 h6 h7 h8 hcomp hp hneg hg hlim
    obtain ⟨v, hd, hvb⟩ := getBalance?_eq_some _ _ _ hg
    have hex : doesAccountExist c.accounts ((readTrim (adminSkip c)).1) = true := by
      unfold doesAccountExist; rw [show dictGet c.accounts ((readTrim (adminSkip c)).1) =
        some v from hd]; rfl
    have h1' : (readTrim (adminSkip c)).1 ≠ "" := h1
    have h2' : (readTrim (readTrim (adminSkip c)).2).1 ≠ "" := h2
    have h2b' : (readTrim (readTrim (readTrim (adminSkip c)).2).2).1 ≠ "" := h2b
    have h5' : (readTrim (adminSkip c)).1 ∉ c.deleted := h5
    have h6' : (readTrim (adminSkip c)).1 ∉ c.created := h6
    have h7' : isAccountDisabled c.accounts ((readTrim (adminSkip c)).1) = false := h7
    have h8' : ¬ (¬ c.session.admin_mode = true ∧
        ¬ isAccountOwnedBy c.accounts ((readTrim (adminSkip c)).1)
          c.session.account_holder_name = true) := by
      rcases h8 with ha | how
      · exact fun hand => hand.1 ha
      · exact fun hand => hand.2 how
    have hlim' : ¬ (¬ c.session.admin_mode = true ∧ PAYBILL_LIMIT_STANDARD < amount) := by
      rcases hlim with ha | hle
      · exact fun hand => hand.1 ha
      · exact fun hand => absurd hand.2 (not_lt.mpr hle)
    have hcomp' : (readTrim (readTrim (adminSkip c)).2).1 ∈ VALID_BILL_COMPANIES := hcomp
    have hp' : parseDecimal ((readTrim (readTrim (readTrim (adminSkip c)).2).2).1) =
        some amount := hp
    have hg' : getBalance? c.accounts ((readTrim (adminSkip c)).1) = some amount := hg
    unfold handleOtherTransactions
    rw [if_neg (not_not_intro hl), if_neg (by decide), if_neg (by decide),
      if_neg (by decide), if_pos rfl]
    unfold paybillTx
    rw [if_neg (by simp [h1', h2', h2b']), if_neg h5', if_neg h6',
      if_neg (by simp [hex]), if_neg (by simp [h7']), if_neg h8',
      if_neg (not_not_intro hcomp')]
    simp only [hp']
    rw [if_neg hneg, if_neg hlim']
    simp only [hg']
    rw [if_neg (lt_irrefl amount)]
    obtain ⟨accounts', hset⟩ :=
      setBalance?_isSome_of_exists c.accounts _ (amount - amount) hex
    simp only [hset]
    refine ⟨_, rfl, ?_⟩
    have hres : getBalance? accounts' ((readTrim (adminSkip c)).1) =
        some (amount - amount) := by
      unfold getBalance?
      rw [dictGet_setBalance? c.accounts accounts' _ _ hset _, if_pos rfl,
        show dictGet c.accounts ((readTrim (adminSkip c)).1) = some v from hd]
      rfl
    rw [sub_self] at hres
    exact hres

/-- Witness for C7: withdrawing the full 500.00 balance succeeds and
leaves a balance of exactly zero. -/
theorem funds_check_strict_boundary_witness :
    getBalance? c7wState.accounts (mr1 c7wState) = some 500 ∧
    parseDecimal (mr2 c7wState) = some 500 ∧
    ∃ c', handleOtherTransactions "withdrawal" c7wState =
        .ok (some "Withdrawal accepted.", c') ∧
      getBalance? c'.accounts (mr1 c7wState) = some 0 :=
  ⟨by decide, by decide,
    funds_check_strict_boundary.1 c7wState 500 rfl (by decide) (by decide) (by decide)
      (by decide) (by decide) (by decide) (by decide) (Or.inr (by decide)) (by decide)
      (by decide) (by decide) (Or.inr (by decide))⟩

/-- No transaction ever removes an id from the created-this-session set. -/
theorem created_monotone (code : String) (c : Ctrl) (r : Option String) (c' : Ctrl)
    (h : handleOtherTransactions code c = .ok (r, c')) :
    ∀ id, id ∈ c.created → id ∈ c'.created := by
  unfold handleOtherTransactions at h
  by_cases hlog : ¬ c.session.logged_in
  · rw [if_pos hlog] at h
    by_cases hev : c.session.ever_logged_in
    · rw [if_pos hev] at h
      simp only [Except.ok.injEq, Prod.mk.injEq] at h
      obtain ⟨h1, h2⟩ := h
      subst h2; simp
    · rw [if_neg hev] at h
      simp only [Except.ok.injEq, Prod.mk.injEq] at h
      obtain ⟨h1, h2⟩ := h
      subst h2; simp
  rw [if_neg hlog] at h
  by_cases hxwithdrawal : code = "withdrawal"
  · rw [if_pos hxwithdrawal] at h
    obtain ⟨r0, c0, hs, hor⟩ := withdrawalTx_shape c
    rw [hs] at h
    simp only [Except.ok.injEq, Prod.mk.injEq] at h
    obtain ⟨h1, h2⟩ := h
    subst h2
    rcases hor with ⟨_, hc0⟩ | ⟨_, _, _, _, _, _, _, _, _, hc0⟩ <;> subst hc0 <;> simp
  rw [if_neg hxwithdrawal] at h
  by_cases hxdeposit : code = "deposit"
  · rw [if_pos hxdeposit] at h
    obtain ⟨r0, c0, hs, hor⟩ := depositTx_shape c
    rw [hs] at h
    simp only [Except.ok.injEq, Prod.mk.injEq] at h
    obtain ⟨h1, h2⟩ := h
    subst h2
    rcases hor with ⟨_, hc0⟩ | ⟨_, _, _, _, _, _, _, _, hc0⟩ <;> subst hc0 <;> simp
  rw [if_neg hxdeposit] at h
  by_cases hxtransfer : code = "transfer"
  · rw [if_pos hxtransfer] at h
    obtain ⟨r0, c0, hs, hor⟩ := transferTx_shape c
    rw [hs] at h
    simp only [Except.ok.injEq, Prod.mk.injEq] at h
    obtain ⟨h1, h2⟩ := h
    subst h2
    rcases hor with ⟨_, hc0⟩ | ⟨_, _, _, _, _, _, _, _, _, _, _, _, _, hc0⟩ <;>
      subst hc0 <;> simp
  rw [if_neg hxtransfer] at h
  by_cases hxpaybill : code = "paybill"
  · rw [if_pos hxpaybill] at h
    obtain ⟨r0, c0, hs, hor⟩ := paybillTx_shape c
    rw [hs] at h
    simp only [Except.ok.injEq, Prod.mk.injEq] at h
    obtain ⟨h1, h2⟩ := h
    subst h2
    rcases hor with ⟨_, hc0⟩ | ⟨_, _, _, _, _, _, _, _, _, hc0⟩ <;> subst hc0 <;> simp
  rw [if_neg hxpaybill] at h
  by_cases hxcreate : code = "create"
  · rw [if_pos hxcreate] at h
    obtain ⟨r0, c0, hs, hor⟩ := createTx_shape c
    rw [hs] at h
    simp only [Except.ok.injEq, Prod.mk.injEq] at h
    obtain ⟨h1, h2⟩ := h
    subst h2
    rcases hor with ⟨_, hc0⟩ | ⟨_, balance, new_num, _, _, _, hc0⟩ <;> subst hc0
    · simp
    · intro id hid
      simp only [prest_created]
      exact List.mem_insert_of_mem (by simpa using hid)
  rw [if_neg hxcreate] at h
  by_cases hxdelete : code = "delete"
  · rw [if_pos hxdelete] at h
    obtain ⟨r0, c0, hs, hor⟩ := deleteTx_shape c
    rw [hs] at h
    simp only [Except.ok.injEq, Prod.mk.injEq] at h
    obtain ⟨h1, h2⟩ := h
    subst h2
    rcases hor with ⟨_, hc0⟩ | ⟨_, hc0⟩ <;> subst hc0 <;> simp
  rw [if_neg hxdelete] at h
  by_cases hxdisable : code = "disable"
  · rw [if_pos hxdisable] at h
    obtain ⟨r0, c0, hs, hor⟩ := disableTx_shape c
    rw [hs] at h
    simp only [Except.ok.injEq, Prod.mk.injEq] at h
    obtain ⟨h1, h2⟩ := h
    subst h2
    rcases hor with ⟨_, hc0⟩ | ⟨_, hc0⟩ <;> subst hc0 <;> simp
  rw [if_neg hxdisable] at h
  by_cases hxchangeplan : code = "changeplan"
  · rw [if_pos hxchangeplan] at h
    obtain ⟨r0, hs⟩ := changeplanTx_shape c
    rw [hs] at h
    simp only [Except.ok.injEq, Prod.mk.injEq] at h
    obtain ⟨h1, h2⟩ := h
    subst h2; simp
  rw [if_neg hxchangeplan] at h
  simp only [Except.ok.injEq, Prod.mk.injEq] at h
  obtain ⟨h1, h2⟩ := h
  subst h2
  exact fun id hid => hid

/-- C5 counterexample: with account `"10001"` in the created-this-session
set, a withdrawal naming that id whose amount line is missing is rejected
with the malformed-input message, not with
`"Account unavailable this session."`, so the claim as stated fails. -/
theorem created_account_rejection_counterexample :
    "10001" ∈ c5xState.created ∧ doesAccountExist c5xState.accounts "10001" = true ∧
    mr1 c5xState = "10001" ∧
    (handleOtherTransactions "withdrawal" c5xState).map (·.1) =
      .ok (some "ERROR: Malformed input.") ∧
    "ERROR: Malformed input." ≠ "ERROR: Account unavailable this session." := by
  refine ⟨by decide, by decide, by decide, by decide, by decide⟩

/-- C5 (amended): a successful create in a logged-in session registers the
new id in both the ledger and the created-this-session set; a subsequent
well-formed withdrawal, deposit, transfer or paybill in the same session
naming an id of that set (and not also deleted this session) is rejected
with `"Account unavailable this session."` even though the id exists in
the ledger; the set only grows across transactions and is cleared exactly
by logout. -/
theorem created_this_session_blocks_money_transactions :
    (∀ c c', c.session.logged_in = true →
      handleOtherTransactions "create" c = .ok (some "Account creation recorded.", c') →
      ∃ id, id ∈ c'.created ∧ doesAccountExist c'.accounts id = true) ∧
    (∀ c, c.session.logged_in = true →
      mr1 c ≠ "" → mr2 c ≠ "" → (mr1 c).length = 5 →
      (mr1 c).data.all Char.isDigit = true →
      mr1 c ∉ c.deleted → mr1 c ∈ c.created →
      handleOtherTransactions "withdrawal" c =
        .ok (some "ERROR: Account unavailable this session.", mrest2 c)) ∧
    (∀ c, c.session.logged_in = true →
      mr1 c ≠ "" → mr2 c ≠ "" →
      mr1 c ∉ c.deleted → mr1 c ∈ c.created →
      handleOtherTransactions "deposit" c =
        .ok (some "ERROR: Account unavailable this session.", mrest2 c)) ∧
    (∀ c, c.session.logged_in = true →
      mr1 c ≠ "" → mr2 c ≠ "" → mr3 c ≠ "" →
      mr1 c ∉ c.deleted → mr2 c ∉ c.deleted →
      (mr1 c ∈ c.created ∨ mr2 c ∈ c.created) →
      handleOtherTransactions "transfer" c =
        .ok (some "ERROR: Account unavailable this session.", mrest3 c)) ∧
    (∀ c, c.session.logged_in = true →
      mr1 c ≠ "" → mr2 c ≠ "" → mr3 c ≠ "" →
      mr1 c ∉ c.deleted → mr1 c ∈ c.created →
      handleOtherTransactions "paybill" c =
        .ok (some "ERROR: Account unavailable this session.", mrest3 c)) ∧
    (∀ code c r c', handleOtherTransactions code c = .ok (r, c') →
      ∀ id, id ∈ c.created → id ∈ c'.created) ∧
    (∀ c, c.session.logged_in = true →
      (handleLogout c).2.created = [] ∧ (handleLogout c).2.deleted = []) := by
  refine ⟨?_, ?_, ?_, ?_, ?_, created_monotone, ?_⟩
  · intro c c' hl h
    unfold handleOtherTransactions at h
    rw [if_neg (not_not_intro hl), if_neg (by decide), if_neg (by decide),
      if_neg (by decide), if_neg (by decide), if_pos rfl] at h
    obtain ⟨r0, c0, hs, hor⟩ := createTx_shape c
    rw [hs] at h
    simp only [Except.ok.injEq, Prod.mk.injEq] at h
    obtain ⟨h1, h2⟩ := h
    subst h2
    rcases hor with ⟨hne, _⟩ | ⟨_, balance, new_num, hp, hbd, hn, hc0⟩
    · exact absurd (by injection h1) hne
    · subst hc0
      refine ⟨new_num, ?_, ?_⟩
      · simp
      · show doesAccountExist (createAccount c.accounts new_num (pr1 c) balance) new_num = true
        unfold doesAccountExist createAccount
        rw [dictGet_dictSet, if_pos rfl]
        rfl
  · intro c hl h1 h2 h3 h4 h5 h6
    have h1' : (readTrim (adminSkip c)).1 ≠ "" := h1
    have h2' : (readTrim (readTrim (adminSkip c)).2).1 ≠ "" := h2
    have h3' : (readTrim (adminSkip c)).1.length = 5 := h3
    have h4' : (readTrim (adminSkip c)).1.data.all Char.isDigit = true := h4
    have h5' : (readTrim (adminSkip c)).1 ∉ c.deleted := h5
    have h6' : (readTrim (adminSkip c)).1 ∈ c.created := h6
    unfold handleOtherTransactions
    rw [if_neg (not_not_intro hl), if_pos rfl]
    unfold withdrawalTx
    rw [if_neg (by simp [h1', h2']), if_neg (by simp [h3', h4']), if_neg h5', if_pos h6']
    rfl
  · intro c hl h1 h2 h5 h6
    have h1' : (readTrim (adminSkip c)).1 ≠ "" := h1
    have h2' : (readTrim (readTrim (adminSkip c)).2).1 ≠ "" := h2
    have h5' : (readTrim (adminSkip c)).1 ∉ c.deleted := h5
    have h6' : (readTrim (adminSkip c)).1 ∈ c.created := h6
    unfold handleOtherTransactions
    rw [if_neg (not_not_intro hl), if_neg (by decide), if_pos rfl]
    unfold depositTx
    rw [if_neg (by simp [h1', h2']), if_neg h5', if_pos h6']
    rfl
  · intro c hl h1 h2 h2b h5 h5d h6
    have h1' : (readTrim (adminSkip c)).1 ≠ "" := h1
    have h2' : (readTrim (readTrim (adminSkip c)).2).1 ≠ "" := h2
    have h2b' : (readTrim (readTrim (readTrim (adminSkip c)).2).2).1 ≠ "" := h2b
    have h5' : (readTrim (adminSkip c)).1 ∉ c.deleted := h5
    have h5d' : (readTrim (readTrim (adminSkip c)).2).1 ∉ c.deleted := h5d
    have h6' : (readTrim (adminSkip c)).1 ∈ c.created ∨
        (readTrim (readTrim (adminSkip c)).2).1 ∈ c.created := h6
    unfold handleOtherTransactions
    rw [if_neg (not_not_intro hl), if_neg (by decide), if_neg (by decide), if_pos rfl]
    unfold transferTx
    rw [if_neg (by simp [h1', h2', h2b']), if_neg (by simp [h5', h5d']), if_pos h6']
    rfl
  · intro c hl h1 h2 h2b h5 h6
    have h1' : (readTrim (adminSkip c)).1 ≠ "" := h1
    have h2' : (readTrim (readTrim (adminSkip c)).2).1 ≠ "" := h2
    have h2b' : (readTrim (readTrim (readTrim (adminSkip c)).2).2).1 ≠ "" := h2b
    have h5' : (readTrim (adminSkip c)).1 ∉ c.deleted := h5
    have h6' : (readTrim (adminSkip c)).1 ∈ c.created := h6
    unfold handleOtherTransactions
    rw [if_neg (not_not_intro hl), if_neg (by decide), if_neg (by decide),
      if_neg (by decide), if_pos rfl]
    unfold paybillTx
    rw [if_neg (by simp [h1', h2', h2b']), if_neg h5', if_pos h6']
    rfl
  · intro c hl
    unfold handleLogout
    rw [if_neg (not_not_intro hl)]
    exact ⟨rfl, rfl⟩

/-- Witness for the amended C5: an admin create registers the new id, a
following well-formed withdrawal against a created-this-session id is
rejected with the unavailable-this-session message, and logout empties the
created set. -/
theorem created_this_session_blocks_money_transactions_witness :
    handleOtherTransactions "create" c5cState =
      .ok (some "Account creation recorded.", c5cPost) ∧
    (∃ id, id ∈ c5cPost.created ∧ doesAccountExist c5cPost.accounts id = true) ∧
    handleOtherTransactions "withdrawal" c5wState =
      .ok (some "ERROR: Account unavailable this session.", mrest2 c5wState) ∧
    (handleLogout c5wState).2.created = [] := by
  have hcr : handleOtherTransactions "create" c5cState =
      .ok (some "Account creation recorded.", c5cPost) := by decide
  refine ⟨hcr,
    created_this_session_blocks_money_transactions.1 c5cState c5cPost rfl hcr, ?_, ?_⟩
  · exact created_this_session_blocks_money_transactions.2.1 c5wState rfl (by decide)
      (by decide) (by decide) (by decide) (by decide) (by decide)
  · exact (created_this_session_blocks_money_transactions.2.2.2.2.2.2 c5wState rfl).1

/-- C9 counterexample: running two sessions back to back, the flush at
the second logout still contains the first session's withdrawal record
(and the first end-of-session sentinel): the writer's `records` list is
never cleared, so a later session's flushed log is not owned by that
session alone. -/
theorem flush_includes_prior_session_counterexample :
    (runAll 20 c9Init).map Ctrl.flushes =
      .ok [[c9rec1, endOfSessionRecordLine],
           [c9rec1, endOfSessionRecordLine, endOfSessionRecordLine]] ∧
    c9rec1 ∈ [c9rec1, endOfSessionRecordLine, endOfSessionRecordLine] ∧
    c9rec1 ≠ endOfSessionRecordLine := by
  refine ⟨by decide, by decide, by decide⟩

/-- C9 (amended): the pending output log is append-only during a session,
no non-logout transaction flushes, and each logout appends exactly one
end-of-session record (code `"00"`, blank 20-character name, id
`"00000"`, amount 00000.00) and flushes the entire accumulated record
list once — which, since the list is never cleared, includes the records
and sentinels of earlier sessions. -/
theorem pending_log_append_only_flush_at_logout :
    (∀ code c r c', handleOtherTransactions code c = .ok (r, c') →
      (∃ tail, c'.records = c.records ++ tail) ∧ c'.flushes = c.flushes) ∧
    (∀ c, (handleLogin c).2.flushes = c.flushes) ∧
    (∀ c, c.session.logged_in = true →
      (handleLogout c).1 = some "Transaction file written." ∧
      (handleLogout c).2.records = c.records ++ [endOfSessionRecordLine] ∧
      (handleLogout c).2.flushes = c.flushes ++ [c.records ++ [endOfSessionRecordLine]]) ∧
    endOfSessionRecordLine = "00                      00000 00000.00   " := by
  refine ⟨?_, ?_, ?_, by decide⟩
  · intro code c r c' h
    unfold handleOtherTransactions at h
    by_cases hlog : ¬ c.session.logged_in
    · rw [if_pos hlog] at h
      by_cases hev : c.session.ever_logged_in
      · rw [if_pos hev] at h
        simp only [Except.ok.injEq, Prod.mk.injEq] at h
        obtain ⟨h1, h2⟩ := h
        subst h2
        exact ⟨⟨[], by simp⟩, by simp⟩
      · rw [if_neg hev] at h
        simp only [Except.ok.injEq, Prod.mk.injEq] at h
        obtain ⟨h1, h2⟩ := h
        subst h2
        exact ⟨⟨[], by simp⟩, by simp⟩
    rw [if_neg hlog] at h
    by_cases hxwithdrawal : code = "withdrawal"
    · rw [if_pos hxwithdrawal] at h
      obtain ⟨r0, c0, hs, hor⟩ := withdrawalTx_shape c
      rw [hs] at h
      simp only [Except.ok.injEq, Prod.mk.injEq] at h
      obtain ⟨h1, h2⟩ := h
      subst h2
      rcases hor with ⟨_, hc0⟩ | ⟨_, amount, bal, accounts', _, _, _, _, _, hc0⟩ <;> subst hc0
      · exact ⟨⟨[], by simp⟩, by simp⟩
      · exact ⟨⟨[formatTransactionRecordLine "01" c.session.account_holder_name
          (mr1 c) amount], by simp⟩, by simp⟩
    rw [if_neg hxwithdrawal] at h
    by_cases hxdeposit : code = "deposit"
    · rw [if_pos hxdeposit] at h
      obtain ⟨r0, c0, hs, hor⟩ := depositTx_shape c
      rw [hs] at h
      simp only [Except.ok.injEq, Prod.mk.injEq] at h
      obtain ⟨h1, h2⟩ := h
      subst h2
      rcases hor with ⟨_, hc0⟩ | ⟨_, _, _, _, _, _, _, _, hc0⟩ <;> subst hc0 <;>
        exact ⟨⟨[], by simp⟩, by simp⟩
    rw [if_neg hxdeposit] at h
    by_cases hxtransfer : code = "transfer"
    · rw [if_pos hxtransfer] at h
      obtain ⟨r0, c0, hs, hor⟩ := transferTx_shape c
      rw [hs] at h
      simp only [Except.ok.injEq, Prod.mk.injEq] at h
      obtain ⟨h1, h2⟩ := h
      subst h2
      rcases hor with ⟨_, hc0⟩ | ⟨_, _, _, _, _, _, _, _, _, _, _, _, _, hc0⟩ <;>
        subst hc0 <;> exact ⟨⟨[], by simp⟩, by simp⟩
    rw [if_neg hxtransfer] at h
    by_cases hxpaybill : code = "paybill"
    · rw [if_pos hxpaybill] at h
      obtain ⟨r0, c0, hs, hor⟩ := paybillTx_shape c
      rw [hs] at h
      simp only [Except.ok.injEq, Prod.mk.injEq] at h
      obtain ⟨h1, h2⟩ := h
      subst h2
      rcases hor with ⟨_, hc0⟩ | ⟨_, _, _, _, _, _, _, _, _, hc0⟩ <;> subst hc0 <;>
        exact ⟨⟨[], by simp⟩, by simp⟩
    rw [if_neg hxpaybill] at h
    by_cases hxcreate : code = "create"
    · rw [if_pos hxcreate] at h
      obtain ⟨r0, c0, hs, hor⟩ := createTx_shape c
      rw [hs] at h
      simp only [Except.ok.injEq, Prod.mk.injEq] at h
      obtain ⟨h1, h2⟩ := h
      subst h2
      rcases hor with ⟨_, hc0⟩ | ⟨_, _, _, _, _, _, hc0⟩ <;> subst hc0 <;>
        exact ⟨⟨[], by simp⟩, by simp⟩
    rw [if_neg hxcreate] at h
    by_cases hxdelete : code = "delete"
    · rw [if_pos hxdelete] at h
      obtain ⟨r0, c0, hs, hor⟩ := deleteTx_shape c
      rw [hs] at h
      simp only [Except.ok.injEq, Prod.mk.injEq] at h
      obtain ⟨h1, h2⟩ := h
      subst h2
      rcases hor with ⟨_, hc0⟩ | ⟨_, hc0⟩ <;> subst hc0 <;>
        exact ⟨⟨[], by simp⟩, by simp⟩
    rw [if_neg hxdelete] at h
    by_cases hxdisable : code = "disable"
    · rw [if_pos hxdisable] at h
      obtain ⟨r0, c0, hs, hor⟩ := disableTx_shape c
      rw [hs] at h
      simp only [Except.ok.injEq, Prod.mk.injEq] at h
      obtain ⟨h1, h2⟩ := h
      subst h2
      rcases hor with ⟨_, hc0⟩ | ⟨_, hc0⟩ <;> subst hc0 <;>
        exact ⟨⟨[], by simp⟩, by simp⟩
    rw [if_neg hxdisable] at h
    by_cases hxchangeplan : code = "changeplan"
    · rw [if_pos hxchangeplan] at h
      obtain ⟨r0, hs⟩ := changeplanTx_shape c
      rw [hs] at h
      simp only [Except.ok.injEq, Prod.mk.injEq] at h
      obtain ⟨h1, h2⟩ := h
      subst h2
      exact ⟨⟨[], by simp⟩, by simp⟩
    rw [if_neg hxchangeplan] at h
    simp only [Except.ok.injEq, Prod.mk.injEq] at h
    obtain ⟨h1, h2⟩ := h
    subst h2
    exact ⟨⟨[], by simp⟩, rfl⟩
  · intro c
    unfold handleLogin
    by_cases hlog : c.session.logged_in
    · rw [if_pos hlog]
      by_cases hm : strLower (strTrim ((nextLine c).1.getD "")) = "standard"
      · rw [if_pos hm]; simp
      · rw [if_neg hm]; simp
    rw [if_neg hlog]
    by_cases hm : strLower (strTrim ((nextLine c).1.getD "")) ≠ "admin" ∧
        strLower (strTrim ((nextLine c).1.getD "")) ≠ "standard"
    · rw [if_pos hm]; simp
    rw [if_neg hm]
    by_cases hm2 : strLower (strTrim ((nextLine c).1.getD "")) = "standard"
    · rw [if_pos hm2]
      by_cases hn : strTrim ((nextLine (nextLine c).2).1.getD "") = ""
      · rw [if_pos hn]; simp
      · rw [if_neg hn]
        unfold loginLookahead
        split <;> simp [pushBack] <;> split <;> simp
    · rw [if_neg hm2]
      unfold loginLookahead
      split <;> simp [pushBack] <;> split <;> simp
  · intro c hl
    unfold handleLogout
    rw [if_neg (not_not_intro hl)]
    exact ⟨rfl, rfl, rfl⟩

/-- Witness for the amended C9: an accepted withdrawal appends one record
without flushing, and the following logout appends the sentinel and
flushes the accumulated list once. -/
theorem pending_log_append_only_flush_at_logout_witness :
    handleOtherTransactions "withdrawal" c7wState =
      .ok (some "Withdrawal accepted.", c7wPost) ∧
    ((∃ tail, c7wPost.records = c7wState.records ++ tail) ∧
      c7wPost.flushes = c7wState.flushes) ∧
    ((handleLogout c7wPost).1 = some "Transaction file written." ∧
      (handleLogout c7wPost).2.records = c7wPost.records ++ [endOfSessionRecordLine] ∧
      (handleLogout c7wPost).2.flushes =
        c7wPost.flushes ++ [c7wPost.records ++ [endOfSessionRecordLine]]) := by
  have hw : handleOtherTransactions "withdrawal" c7wState =
      .ok (some "Withdrawal accepted.", c7wPost) := by decide
  exact ⟨hw,
    pending_log_append_only_flush_at_logout.1 "withdrawal" c7wState
      (some "Withdrawal accepted.") c7wPost hw,
    pending_log_append_only_flush_at_logout.2.2.1 c7wPost rfl⟩

@[simp] theorem pushBack_session (l : Option String) (c : Ctrl) :
    (pushBack l c).session = c.session := by
  cases l <;> rfl

/-- The reader ignores the session: replacing the session field changes
neither the line read nor anything but the session of the next state. -/
theorem nextLine_setSession (c : Ctrl) (s : SessionState) :
    nextLine { c with session := s } = ((nextLine c).1, { (nextLine c).2 with session := s }) := by
  rcases c with ⟨s0, a, r, f, cr, de, buf, st⟩
  cases buf <;> cases st <;> rfl

/-- Observable behaviour of the login lookahead: the session is started,
the peeked line is still the next line the reader produces, and the banner
is suppressed exactly when that line (stripped, lower-cased) is a bank
transaction code. -/
theorem loginLookahead_prop (mode name : String) (c0 : Ctrl) :
    (loginLookahead mode name c0).2.session.logged_in = true ∧
    (nextLine (loginLookahead mode name c0).2).1 = (nextLine c0).1 ∧
    ((loginLookahead mode name c0).1 = none ↔
      strLower (strTrim ((nextLine c0).1.getD "")) ∈ bankCodes) ∧
    ((loginLookahead mode name c0).1 = none ∨
      (loginLookahead mode name c0).1 = some ("Login successful (" ++ mode ++ ").")) := by
  unfold loginLookahead
  rw [nextLine_setSession c0 (startSession c0.session mode name)]
  by_cases hb : strLower (strTrim ((nextLine c0).1.getD "")) ∈ bankCodes
  · rw [if_pos hb]
    refine ⟨by simp [startSession], ?_, by simp [hb], Or.inl rfl⟩
    rcases hpk : (nextLine c0).1 with _ | l
    · show (nextLine (pushBack none _)).1 = none
      unfold pushBack
      rw [nextLine_setSession]
      rw [(nextLine_eq_none c0 hpk).1]
      exact hpk
    · show (nextLine (pushBack (some l) _)).1 = some l
      rw [nextLine_pushBack]
  · rw [if_neg hb]
    refine ⟨by simp [startSession], ?_, by simp [hb], Or.inr rfl⟩
    rcases hpk : (nextLine c0).1 with _ | l
    · show (nextLine (pushBack none _)).1 = none
      unfold pushBack
      rw [nextLine_setSession]
      rw [(nextLine_eq_none c0 hpk).1]
      exact hpk
    · show (nextLine (pushBack (some l) _)).1 = some l
      rw [nextLine_pushBack]

/-- C4: for every successful login (either mode), the engine peeks one
line after consuming the credentials and pushes it back, so the very next
read returns that same line; the login produces no response at all exactly
when the peeked line, stripped and lower-cased, is one of
deposit/withdrawal/transfer/paybill (including at end-of-stream, where
the peek is the EOF sentinel and the banner is printed), and otherwise
returns the `Login successful (<mode>).` banner. -/
theorem login_success_lookahead (c : Ctrl) (hlog : c.session.logged_in = false) :
    (strLower (strTrim ((nextLine c).1.getD "")) = "admin" →
      (handleLogin c).2.session.logged_in = true ∧
      (nextLine (handleLogin c).2).1 = (nextLine (nextLine c).2).1 ∧
      ((handleLogin c).1 = none ↔
        strLower (strTrim ((nextLine (nextLine c).2).1.getD "")) ∈ bankCodes) ∧
      ((handleLogin c).1 = none ∨
        (handleLogin c).1 = some "Login successful (admin).")) ∧
    (strLower (strTrim ((nextLine c).1.getD "")) = "standard" →
      strTrim ((nextLine (nextLine c).2).1.getD "") ≠ "" →
      (handleLogin c).2.session.logged_in = true ∧
      (nextLine (handleLogin c).2).1 = (nextLine (nextLine (nextLine c).2).2).1 ∧
      ((handleLogin c).1 = none ↔
        strLower (strTrim ((nextLine (nextLine (nextLine c).2).2).1.getD "")) ∈
          bankCodes) ∧
      ((handleLogin c).1 = none ∨
        (handleLogin c).1 = some "Login successful (standard).")) := by
  constructor
  · intro hm
    have heq : handleLogin c = loginLookahead "admin" "" (nextLine c).2 := by
      unfold handleLogin
      rw [if_neg (by simp [hlog]), if_neg (by simp [hm]), if_neg (by simp [hm])]
    rw [heq]
    exact loginLookahead_prop "admin" "" (nextLine c).2
  · intro hm hn
    have heq : handleLogin c = loginLookahead "standard"
        (strTrim ((nextLine (nextLine c).2).1.getD "")) (nextLine (nextLine c).2).2 := by
      unfold handleLogin
      rw [if_neg (by simp [hlog]), if_neg (by simp [hm]), if_pos hm, if_neg hn]
    rw [heq]
    exact loginLookahead_prop "standard" _ (nextLine (nextLine c).2).2

/-- Witness for C4: a standard login for Alice followed by a deposit line
suppresses the banner and leaves the deposit line as the next read. -/
theorem login_success_lookahead_witness :
    c4wState.session.logged_in = false ∧
    strLower (strTrim ((nextLine c4wState).1.getD "")) = "standard" ∧
    strTrim ((nextLine (nextLine c4wState).2).1.getD "") ≠ "" ∧
    ((handleLogin c4wState).2.session.logged_in = true ∧
      (nextLine (handleLogin c4wState).2).1 =
        (nextLine (nextLine (nextLine c4wState).2).2).1 ∧
      ((handleLogin c4wState).1 = none ↔
        strLower (strTrim ((nextLine (nextLine (nextLine c4wState).2).2).1.getD "")) ∈
          bankCodes) ∧
      ((handleLogin c4wState).1 = none ∨
        (handleLogin c4wState).1 = some "Login successful (standard).")) :=
  ⟨rfl, by decide, by decide,
    (login_success_lookahead c4wState rfl).2 (by decide) (by decide)⟩

/-- What `handleLogout` does to a logged-in state: it reports success,
appends the end-of-session record and flushes the whole record list. -/
theorem handleLogout_on_logged_in (d : Ctrl) (hl : d.session.logged_in = true) :
    (handleLogout d).1 = some "Transaction file written." ∧
    (handleLogout d).2.records = d.records ++ [endOfSessionRecordLine] ∧
    (handleLogout d).2.flushes = d.flushes ++ [d.records ++ [endOfSessionRecordLine]] := by
  unfold handleLogout
  rw [if_neg (not_not_intro hl)]
  exact ⟨rfl, rfl, rfl⟩

/-- C6: a standard-mode login whose holder-name line is empty after
stripping returns the malformed-input rejection, yet the session is
started with an empty holder name, so a following logout still flushes the
transaction file. -/
theorem blank_standard_login_starts_session (c : Ctrl)
    (hlog : c.session.logged_in = false)
    (hm : strLower (strTrim ((nextLine c).1.getD "")) = "standard")
    (hn : strTrim ((nextLine (nextLine c).2).1.getD "") = "") :
    (handleLogin c).1 = some "ERROR: Malformed input." ∧
    (handleLogin c).2.session.logged_in = true ∧
    (handleLogin c).2.session.account_holder_name = "" ∧
    (handleLogout (handleLogin c).2).1 = some "Transaction file written." ∧
    (handleLogout (handleLogin c).2).2.flushes =
      (handleLogin c).2.flushes ++ [(handleLogin c).2.records ++ [endOfSessionRecordLine]] := by
  have heq : handleLogin c = (some "ERROR: Malformed input.",
      { (nextLine (nextLine c).2).2 with
        session := startSession (nextLine (nextLine c).2).2.session "standard" "" }) := by
    unfold handleLogin
    rw [if_neg (by simp [hlog]), if_neg (by simp [hm]), if_pos hm, if_pos hn]
  have hli : (handleLogin c).2.session.logged_in = true := by rw [heq]; rfl
  have hlo := handleLogout_on_logged_in (handleLogin c).2 hli
  exact ⟨by rw [heq], hli, by rw [heq]; rfl, hlo.1, hlo.2.2⟩

/-- Witness for C6 at a concrete blank-name standard login. -/
theorem blank_standard_login_starts_session_witness :
    c6wState.session.logged_in = false ∧
    strLower (strTrim ((nextLine c6wState).1.getD "")) = "standard" ∧
    strTrim ((nextLine (nextLine c6wState).2).1.getD "") = "" ∧
    ((handleLogin c6wState).1 = some "ERROR: Malformed input." ∧
      (handleLogin c6wState).2.session.logged_in = true ∧
      (handleLogin c6wState).2.session.account_holder_name = "" ∧
      (handleLogout (handleLogin c6wState).2).1 = some "Transaction file written." ∧
      (handleLogout (handleLogin c6wState).2).2.flushes =
        (handleLogin c6wState).2.flushes ++
          [(handleLogin c6wState).2.records ++ [endOfSessionRecordLine]]) :=
  ⟨rfl, by decide, by decide,
    blank_standard_login_starts_session c6wState rfl (by decide) (by decide)⟩

end Phase2
